import Mathlib

/-!
Shallow embedding of the `tex-packer-core` crate (crates/tex-packer-core/src)
and verification of its specification claims.

Conventions of the embedding:
* Rust `u32` values are modelled as `Nat`. All arithmetic in the embedded code
  stays far below `2^32`, and the crate uses `saturating_sub`/`saturating_add`
  for every subtraction that could underflow, which coincides with `Nat`
  subtraction/addition.
* Rust `i32` scores are modelled as `Int`; the `i32::MAX` sentinel used to
  initialise "best score" accumulators is kept as the literal `2147483647`.
* `Vec<T>` is `List T`; `Vec::swap_remove`, `Vec::remove`, `Vec::insert` are
  modelled by `swapRemove`, `List.eraseIdx`, `List.insertIdx`.
* Rust's stable `sort_by` is modelled by a stable insertion sort with the
  boolean predicate `cmp a b ≠ .gt`; any two stable sorts for the same total
  preorder agree, so this is the same function.
* `RgbaImage` is a width, a height and a pixel function; `put_pixel` becomes a
  function update restricted to the written coordinate set.
* fallible functions return `Except TexPackerError _` or `Option _`.
-/

namespace TexPacker

/-! ## List helpers mirroring `Vec` operations -/

/-- Model of Rust `Vec::swap_remove(i)`: remove index `i`, moving the last
element into its place. -/
def swapRemove {α : Type} (l : List α) (i : Nat) : List α :=
  match l.getLast? with
  | none => []
  | some last => if i = l.length - 1 then l.dropLast else (l.set i last).dropLast

/-- Stable insertion: put `x` before the first element `y` with `le x y`. -/
def insertStable {α : Type} (le : α → α → Bool) (x : α) : List α → List α
  | [] => [x]
  | y :: ys => if le x y then x :: y :: ys else y :: insertStable le x ys

/-- Stable sort. Rust's `sort_by(cmp)` is a stable sort for the total preorder
`le a b := cmp a b ≠ Ordering::Greater`; insertion sort is stable, hence this
computes the same list. -/
def sortStable {α : Type} (le : α → α → Bool) : List α → List α
  | [] => []
  | x :: xs => insertStable le x (sortStable le xs)

/-- Lexicographic comparison of char lists by code point, i.e. Rust's `str`
ordering (UTF-8 byte order coincides with code-point order). -/
def charListCmp : List Char → List Char → Ordering
  | [], [] => .eq
  | [], _ :: _ => .lt
  | _ :: _, [] => .gt
  | a :: as, b :: bs =>
    if a.toNat < b.toNat then .lt
    else if b.toNat < a.toNat then .gt
    else charListCmp as bs

/-- Rust `String::cmp`. -/
def strCmp (a b : String) : Ordering := charListCmp a.data b.data

/-- Rust `Nat`-valued `cmp`. -/
def natCmp (a b : Nat) : Ordering :=
  if a < b then .lt else if b < a then .gt else .eq

/-- `pipeline.rs::next_pow2` (bit-smearing round-up; `u32` values in use stay
far below `2^31`, so plain `Nat` bit operations coincide). -/
def nextPow2 (v : Nat) : Nat :=
  if v ≤ 1 then 1
  else
    let v := v - 1
    let v := v ||| (v >>> 1)
    let v := v ||| (v >>> 2)
    let v := v ||| (v >>> 4)
    let v := v ||| (v >>> 8)
    let v := v ||| (v >>> 16)
    v + 1

/-! ## Geometry primitives (`model.rs`) -/

/-- `model.rs` `Rect`: axis-aligned rectangle, `x,y` top-left, `w,h` sizes. -/
structure Rect where
  x : Nat
  y : Nat
  w : Nat
  h : Nat
  deriving DecidableEq, Repr

namespace Rect

/-- `Rect::right`: inclusive right edge `x + w.saturating_sub(1)`. -/
def right (r : Rect) : Nat := r.x + (r.w - 1)

/-- `Rect::bottom`: inclusive bottom edge `y + h.saturating_sub(1)`. -/
def bottom (r : Rect) : Nat := r.y + (r.h - 1)

/-- `Rect::contains`: `r` fully inside `self` (inclusive edges). -/
def contains (s r : Rect) : Bool :=
  r.x ≥ s.x && r.y ≥ s.y && r.right ≤ s.right && r.bottom ≤ s.bottom

end Rect

/-! ## Configuration (`config.rs`) -/

/-- `config.rs` `AlgorithmFamily`. -/
inductive AlgorithmFamily where
  | skyline | maxrects | guillotine | auto
  deriving DecidableEq, Repr

/-- `config.rs` `MaxRectsHeuristic`. -/
inductive MaxRectsHeuristic where
  | bestAreaFit | bestShortSideFit | bestLongSideFit | bottomLeft | contactPoint
  deriving DecidableEq, Repr

/-- `config.rs` `SkylineHeuristic`. -/
inductive SkylineHeuristic where
  | bottomLeft | minWaste
  deriving DecidableEq, Repr

/-- `config.rs` `GuillotineChoice`. -/
inductive GuillotineChoice where
  | bestAreaFit | bestShortSideFit | bestLongSideFit
  | worstAreaFit | worstShortSideFit | worstLongSideFit
  deriving DecidableEq, Repr

/-- `config.rs` `GuillotineSplit`. -/
inductive GuillotineSplit where
  | splitShorterLeftoverAxis | splitLongerLeftoverAxis
  | splitMinimizeArea | splitMaximizeArea
  | splitShorterAxis | splitLongerAxis
  deriving DecidableEq, Repr

/-- `config.rs` `AutoMode`. -/
inductive AutoMode where
  | fast | quality
  deriving DecidableEq, Repr

/-- `config.rs` `SortOrder`. -/
inductive SortOrder where
  | areaDesc | maxSideDesc | heightDesc | widthDesc | nameAsc | noSort
  deriving DecidableEq, Repr

/-- `config.rs` `PackerConfig` (fields used by the verified core; the
Auto-portfolio `parallel` flag selects a feature-gated code path whose result
order is the same reduction and is not modelled). -/
structure PackerConfig where
  max_width : Nat
  max_height : Nat
  allow_rotation : Bool
  force_max_dimensions : Bool
  border_padding : Nat
  texture_padding : Nat
  texture_extrusion : Nat
  trim : Bool
  trim_threshold : Nat
  texture_outlines : Bool
  power_of_two : Bool
  square : Bool
  use_waste_map : Bool
  family : AlgorithmFamily
  mr_heuristic : MaxRectsHeuristic
  skyline_heuristic : SkylineHeuristic
  g_choice : GuillotineChoice
  g_split : GuillotineSplit
  auto_mode : AutoMode
  sort_order : SortOrder
  time_budget_ms : Option Nat
  mr_reference : Bool
  auto_mr_ref_time_ms_threshold : Option Nat
  auto_mr_ref_input_threshold : Option Nat
  deriving DecidableEq, Repr

/-- `PackerConfig::default` / `PackerConfigBuilder::new` baseline. -/
def PackerConfig.default : PackerConfig where
  max_width := 1024
  max_height := 1024
  allow_rotation := true
  force_max_dimensions := false
  border_padding := 0
  texture_padding := 2
  texture_extrusion := 0
  trim := true
  trim_threshold := 0
  texture_outlines := false
  power_of_two := false
  square := false
  use_waste_map := false
  family := .skyline
  mr_heuristic := .bestAreaFit
  skyline_heuristic := .bottomLeft
  g_choice := .bestAreaFit
  g_split := .splitShorterLeftoverAxis
  auto_mode := .quality
  sort_order := .areaDesc
  time_budget_ms := none
  mr_reference := false
  auto_mr_ref_time_ms_threshold := none
  auto_mr_ref_input_threshold := none

/-! ## Errors (`error.rs`)

`error.rs` declares `OutOfSpace { key, width, height, pages_attempted }` and
`OutOfSpaceGeneric { placed, total }`. The revisions of `pipeline.rs` and
`runtime.rs` in the tree construct `TexPackerError::OutOfSpace` as a unit value
(no fields), which is the observable behaviour of those functions; the unit
constructor `outOfSpace` below models that use. `panicked` models a Rust
`unreachable!()` panic. I/O and image-decoding variants are outside the core. -/

inductive TexPackerError where
  | invalidInput (msg : String)
  | invalidConfig (msg : String)
  | textureTooLarge (key : String) (width height max_width max_height : Nat)
  | outOfSpace
  | outOfSpaceGeneric (placed total : Nat)
  | empty
  | encode (msg : String)
  | invalidDimensions (width height : Nat)
  | invalidPadding (border texture extrusion : Nat)
  | panicked
  deriving DecidableEq, Repr

/-! ## Data model (`model.rs`) -/

/-- `model.rs` `Frame<String>`. -/
structure Frame where
  key : String
  frame : Rect
  rotated : Bool
  trimmed : Bool
  source : Rect
  source_size : Nat × Nat
  deriving DecidableEq, Repr

/-- `model.rs` `Page<String>`. -/
structure Page where
  id : Nat
  width : Nat
  height : Nat
  frames : List Frame
  deriving DecidableEq, Repr

/-- `model.rs` `Meta`. The `scale: f32` field is the literal `1.0` at every
construction site in the crate; it is modelled by the `Nat` it denotes. -/
structure Meta where
  schema_version : String
  app : String
  version : String
  format : String
  scale : Nat
  power_of_two : Bool
  square : Bool
  max_dim : Nat × Nat
  padding : Nat × Nat
  extrude : Nat
  allow_rotation : Bool
  trim_mode : String
  background_color : Option (Nat × Nat × Nat × Nat)
  deriving DecidableEq, Repr

/-- `model.rs` `Atlas<String>`. -/
structure Atlas where
  pages : List Page
  meta : Meta
  deriving DecidableEq, Repr

/-- Value of `env!("CARGO_PKG_VERSION")`; the exact string never influences
geometry, it only appears verbatim in `Meta.version`. -/
def cargoPkgVersion : String := "0.0.0"

/-! ## Shared free-list algorithms

`guillotine.rs`, `runtime.rs` and the skyline waste map each contain a verbatim
copy of the same `prune_free_list` (dominance pruning, `Vec::remove` based) and
`merge_free_list` (first-found colinear merge, restart) routines;
`maxrects.rs::prune_free_list` is the same routine. They are embedded once. -/

/-- Exclusive-coordinate overlap test used by all packers
(`intersects` in `maxrects.rs` / `skyline.rs`). -/
def rectsIntersect (a b : Rect) : Bool :=
  !(a.x ≥ b.x + b.w || b.x ≥ a.x + a.w || a.y ≥ b.y + b.h || b.y ≥ a.y + a.h)

/-- Containment by exclusive coordinates, as recomputed inside the prune
loops: `a.x >= b.x && a.y >= b.y && a_x2 <= b_x2 && a_y2 <= b_y2`. -/
def insideEx (a b : Rect) : Bool :=
  a.x ≥ b.x && a.y ≥ b.y && a.x + a.w ≤ b.x + b.w && a.y + a.h ≤ b.y + b.h

/-- Inner loop of `prune_free_list`: scan `j` upward, removing entries of `v`
contained in `a`, and stop reporting `true` if `a` is contained in some entry.
The loop variant `v.length - j` strictly decreases each step, so any `fuel`
above it makes this the exact source loop (all loops in this file follow this
fuel discipline so that the kernel can evaluate them). -/
def pruneInner : Nat → Rect → List Rect → Nat → List Rect × Bool
  | 0, _, v, _ => (v, false)
  | fuel + 1, a, v, j =>
    if h : j < v.length then
      let b := v.get ⟨j, h⟩
      if insideEx a b then (v, true)
      else if insideEx b a then pruneInner fuel a (v.eraseIdx j) j
      else pruneInner fuel a v (j + 1)
    else (v, false)

/-- Outer loop of `prune_free_list`; loop variant `v.length - i`. -/
def pruneOuter : Nat → List Rect → Nat → List Rect
  | 0, v, _ => v
  | fuel + 1, v, i =>
    if h : i < v.length then
      let res := pruneInner (v.length + 1) (v.get ⟨i, h⟩) v (i + 1)
      if res.2 then pruneOuter fuel (res.1.eraseIdx i) i
      else pruneOuter fuel res.1 (i + 1)
    else v

/-- `prune_free_list`: remove free rects dominated (contained) by another,
with the exact iteration/removal order of the source. -/
def pruneFreeList (v : List Rect) : List Rect := pruneOuter (v.length + 1) v 0

/-- One merge attempt between entries `a = v[i]` and `b = v[j]` (`i < j`),
in the order the source checks: horizontal (a then b first), vertical. -/
def tryMerge (a b : Rect) : Option Rect :=
  if a.y = b.y ∧ a.h = b.h ∧ a.x + a.w = b.x then some ⟨a.x, a.y, a.w + b.w, a.h⟩
  else if a.y = b.y ∧ a.h = b.h ∧ b.x + b.w = a.x then some ⟨b.x, a.y, a.w + b.w, a.h⟩
  else if a.x = b.x ∧ a.w = b.w ∧ a.y + a.h = b.y then some ⟨a.x, a.y, a.w, a.h + b.h⟩
  else if a.x = b.x ∧ a.w = b.w ∧ b.y + b.h = a.y then some ⟨a.x, b.y, a.w, a.h + b.h⟩
  else none

/-- Find the first mergeable pair in the `for i { for j in i+1.. }` scan order
and perform the merge (`free[i] = merged; free.remove(j)`). -/
def mergeStep (v : List Rect) : Option (List Rect) :=
  (List.range v.length).findSome? fun i =>
    (List.range' (i + 1) (v.length - (i + 1))).findSome? fun j =>
      match tryMerge (v.getD i ⟨0,0,0,0⟩) (v.getD j ⟨0,0,0,0⟩) with
      | some m => some ((v.set i m).eraseIdx j)
      | none => none

/-- `merge_free_list`: repeat first-found colinear merges until none applies.
Each successful merge shortens the list, so `v.length + 1` fuel is exact. -/
def mergeLoop : Nat → List Rect → List Rect
  | 0, v => v
  | fuel + 1, v =>
    match mergeStep v with
    | none => v
    | some v' => mergeLoop fuel v'

/-- `merge_free_list` entry point. -/
def mergeFreeList (v : List Rect) : List Rect := mergeLoop (v.length + 1) v

/-- Subtraction of a placed `node` from an intersecting free rect `fr` into up
to four strips (above, below, left, right). This body appears verbatim as the
default `MaxRectsPacker::place_rect` split and as `WasteMap::place`
(`skyline.rs`). -/
def subtractStrips (fr node : Rect) : List Rect :=
  let fr_x2 := fr.x + fr.w
  let fr_y2 := fr.y + fr.h
  let n_x2 := node.x + node.w
  let n_y2 := node.y + node.h
  let ix1 := max fr.x node.x
  let iy1 := max fr.y node.y
  let ix2 := min fr_x2 n_x2
  let iy2 := min fr_y2 n_y2
  let out : List Rect := []
  let out := if iy1 > fr.y then out ++ [⟨fr.x, fr.y, fr.w, iy1 - fr.y⟩] else out
  let out := if iy2 < fr_y2 then out ++ [⟨fr.x, iy2, fr.w, fr_y2 - iy2⟩] else out
  let out :=
    if ix1 > fr.x ∧ iy2 - iy1 > 0 then out ++ [⟨fr.x, iy1, ix1 - fr.x, iy2 - iy1⟩]
    else out
  if ix2 < fr_x2 ∧ iy2 - iy1 > 0 then out ++ [⟨ix2, iy1, fr_x2 - ix2, iy2 - iy1⟩]
  else out

/-- `score_choice` (`skyline.rs` / `runtime.rs`): two-component Guillotine
choice score, minimised lexicographically. -/
def scoreChoice (choice : GuillotineChoice) (fr : Rect) (w h : Nat) : Int × Int :=
  let area_fit : Int := (fr.w * fr.h : Nat) - (w * h : Nat)
  let leftover_h : Int := (fr.w : Int) - (w : Int)
  let leftover_v : Int := (fr.h : Int) - (h : Int)
  let short_fit : Int := min leftover_h.natAbs leftover_v.natAbs
  let long_fit : Int := max leftover_h.natAbs leftover_v.natAbs
  match choice with
  | .bestAreaFit => (area_fit, short_fit)
  | .bestShortSideFit => (short_fit, long_fit)
  | .bestLongSideFit => (long_fit, short_fit)
  | .worstAreaFit => (-area_fit, -short_fit)
  | .worstShortSideFit => (-short_fit, -long_fit)
  | .worstLongSideFit => (-long_fit, -short_fit)

/-- `split_rect` (`runtime.rs`), identical to `GuillotinePacker::split`:
split the free rect that hosted `placed` into bottom/right strips along the
axis chosen by the split heuristic. -/
def splitRect (split : GuillotineSplit) (fr placed : Rect) :
    Option Rect × Option Rect :=
  let w_right := (fr.x + fr.w) - (placed.x + placed.w)
  let h_bottom := (fr.y + fr.h) - (placed.y + placed.h)
  let split_horizontal : Bool :=
    match split with
    | .splitShorterLeftoverAxis => h_bottom < w_right
    | .splitLongerLeftoverAxis => h_bottom > w_right
    | .splitMinimizeArea => w_right * fr.h ≤ fr.w * h_bottom
    | .splitMaximizeArea => w_right * fr.h ≥ fr.w * h_bottom
    | .splitShorterAxis => fr.h < fr.w
    | .splitLongerAxis => fr.h > fr.w
  let bottom : Rect :=
    if split_horizontal then ⟨fr.x, placed.y + placed.h, fr.w, fr.h - placed.h⟩
    else ⟨fr.x, placed.y + placed.h, placed.w, fr.h - placed.h⟩
  let rightR : Rect :=
    if split_horizontal then ⟨placed.x + placed.w, fr.y, fr.w - placed.w, placed.h⟩
    else ⟨placed.x + placed.w, fr.y, fr.w - placed.w, fr.h⟩
  (if bottom.w > 0 ∧ bottom.h > 0 then some bottom else none,
   if rightR.w > 0 ∧ rightR.h > 0 then some rightR else none)

/-! ## Guillotine packer (`packer/guillotine.rs`) -/

/-- `guillotine.rs` `GuillotinePacker` state. -/
structure GuillotinePacker where
  config : PackerConfig
  free : List Rect
  used : List Rect
  choice : GuillotineChoice
  split : GuillotineSplit
  deriving DecidableEq, Repr

namespace GuillotinePacker

/-- `GuillotinePacker::new`. -/
def new (config : PackerConfig) (choice : GuillotineChoice)
    (split : GuillotineSplit) : GuillotinePacker :=
  let pad := config.border_padding
  let w := config.max_width - pad * 2
  let h := config.max_height - pad * 2
  let border : Rect := ⟨pad, pad, w, h⟩
  { config, free := [border], used := [], choice, split }

/-- `GuillotinePacker::score`: single-component choice score. -/
def score (choice : GuillotineChoice) (fr : Rect) (w h : Nat) : Int :=
  let area_fit : Int := (fr.w * fr.h : Nat) - (w * h : Nat)
  let leftover_h : Int := (fr.w : Int) - (w : Int)
  let leftover_v : Int := (fr.h : Int) - (h : Int)
  let short_fit : Int := min leftover_h.natAbs leftover_v.natAbs
  let long_fit : Int := max leftover_h.natAbs leftover_v.natAbs
  match choice with
  | .bestAreaFit => area_fit
  | .bestShortSideFit => short_fit
  | .bestLongSideFit => long_fit
  | .worstAreaFit => -area_fit
  | .worstShortSideFit => -short_fit
  | .worstLongSideFit => -long_fit

/-- `GuillotinePacker::choose`: best free rect by strict score improvement,
trying the rotated orientation when `allow_rotation`. -/
def choose (p : GuillotinePacker) (w h : Nat) : Option (Nat × Rect × Bool) :=
  let step := fun (acc : Option Nat × Int × Rect × Bool) (ifr : Nat × Rect) =>
    let (i, fr) := ifr
    let (bestIdx, bestScore, bestRect, bestRot) := acc
    let acc1 :=
      if fr.w ≥ w ∧ fr.h ≥ h then
        let s := score p.choice fr w h
        if s < bestScore then (some i, s, (⟨fr.x, fr.y, w, h⟩ : Rect), false)
        else (bestIdx, bestScore, bestRect, bestRot)
      else (bestIdx, bestScore, bestRect, bestRot)
    if p.config.allow_rotation ∧ fr.w ≥ h ∧ fr.h ≥ w then
      let s := score p.choice fr h w
      if s < acc1.2.1 then (some i, s, (⟨fr.x, fr.y, h, w⟩ : Rect), true)
      else acc1
    else acc1
  let res := p.free.enum.foldl step (none, (2147483647 : Int), ⟨0, 0, 0, 0⟩, false)
  match res with
  | (some i, _, r, rot) => some (i, r, rot)
  | (none, _, _, _) => none

/-- `GuillotinePacker::split` is the shared `splitRect` on `p.split`. -/
def splitP (p : GuillotinePacker) (fr placed : Rect) : Option Rect × Option Rect :=
  splitRect p.split fr placed

/-- `GuillotinePacker::place`. -/
def place (p : GuillotinePacker) (idx : Nat) (placed : Rect) : GuillotinePacker :=
  match p.free.getD idx ⟨0, 0, 0, 0⟩, swapRemove p.free idx with
  | fr, free1 =>
    let (a, b) := splitP p fr placed
    let free2 := match a with | some r => free1 ++ [r] | none => free1
    let free3 := match b with | some r => free2 ++ [r] | none => free2
    let free4 := mergeFreeList (pruneFreeList free3)
    { p with free := free4, used := p.used ++ [placed] }

/-- `Packer::can_pack` for `GuillotinePacker`. -/
def can_pack (p : GuillotinePacker) (rect : Rect) : Bool :=
  let w := rect.w + p.config.texture_padding + p.config.texture_extrusion * 2
  let h := rect.h + p.config.texture_padding + p.config.texture_extrusion * 2
  (p.choose w h).isSome

/-- `Packer::pack` for `GuillotinePacker`. Returns the updated state and the
optional frame. Note the frame rect keeps `rect.w/rect.h` unswapped even when
`rotated` is true, exactly as the source does. -/
def pack (p : GuillotinePacker) (key : String) (rect : Rect) :
    GuillotinePacker × Option Frame :=
  let w := rect.w + p.config.texture_padding + p.config.texture_extrusion * 2
  let h := rect.h + p.config.texture_padding + p.config.texture_extrusion * 2
  match p.choose w h with
  | some (idx, placeR, rotated) =>
    let p1 := p.place idx placeR
    let pad_half := p.config.texture_padding / 2
    let off := p.config.texture_extrusion + pad_half
    let frame_rect : Rect := ⟨placeR.x + off, placeR.y + off, rect.w, rect.h⟩
    (p1, some { key, frame := frame_rect, rotated, trimmed := false,
                source := rect, source_size := (rect.w, rect.h) })
  | none => (p, none)

end GuillotinePacker

/-! ## MaxRects packer (`packer/maxrects.rs`) -/

/-- `maxrects.rs` `MaxRectsPacker` state. -/
structure MaxRectsPacker where
  config : PackerConfig
  border : Rect
  free : List Rect
  used : List Rect
  heuristic : MaxRectsHeuristic
  deriving DecidableEq, Repr

namespace MaxRectsPacker

/-- `MaxRectsPacker::new`. -/
def new (config : PackerConfig) (heuristic : MaxRectsHeuristic) : MaxRectsPacker :=
  let pad := config.border_padding
  let w := config.max_width - pad * 2
  let h := config.max_height - pad * 2
  let border : Rect := ⟨pad, pad, w, h⟩
  { config, border, free := [border], used := [], heuristic }

/-- 1-D overlap length (`overlap_1d`). -/
def overlap1d (a1 a2 b1 b2 : Nat) : Nat := min a2 b2 - max a1 b1

/-- `MaxRectsPacker::contact_point_score`. -/
def contact_point_score (p : MaxRectsPacker) (x y w h : Nat) : Nat :=
  let node : Rect := ⟨x, y, w, h⟩
  let border_right := p.border.x + p.border.w
  let border_bottom := p.border.y + p.border.h
  let s0 : Nat := 0
  let s1 := if node.x = p.border.x then s0 + node.h else s0
  let s2 := if node.y = p.border.y then s1 + node.w else s1
  let s3 := if node.x + node.w = border_right then s2 + node.h else s2
  let s4 := if node.y + node.h = border_bottom then s3 + node.w else s3
  p.used.foldl
    (fun acc u =>
      let acc1 :=
        if node.x = u.x + u.w ∨ u.x = node.x + node.w then
          acc + overlap1d node.y (node.y + node.h) u.y (u.y + u.h)
        else acc
      if node.y = u.y + u.h ∨ u.y = node.y + node.h then
        acc1 + overlap1d node.x (node.x + node.w) u.x (u.x + u.w)
      else acc1)
    s4

/-- `MaxRectsPacker::score`: two-component score, minimised lexicographically. -/
def scoreMR (p : MaxRectsPacker) (fr : Rect) (w h : Nat) : Int × Int :=
  let leftover_h : Int := (fr.w : Int) - (w : Int)
  let leftover_v : Int := (fr.h : Int) - (h : Int)
  let short_fit : Int := min leftover_h.natAbs leftover_v.natAbs
  let long_fit : Int := max leftover_h.natAbs leftover_v.natAbs
  let area_fit : Int := (fr.w * fr.h : Nat) - (w * h : Nat)
  match p.heuristic with
  | .bestAreaFit => (area_fit, short_fit)
  | .bestShortSideFit => (short_fit, long_fit)
  | .bestLongSideFit => (long_fit, short_fit)
  | .bottomLeft => ((fr.y : Int), (fr.x : Int))
  | .contactPoint => (-(p.contact_point_score fr.x fr.y w h : Int), area_fit)

/-- Accumulator for `find_position`: best (score1, score2, top, left, rect, rot). -/
structure FindAcc where
  s1 : Int
  s2 : Int
  top : Nat
  left : Nat
  rect : Rect
  rot : Bool
  deriving Repr

/-- One `find_position` loop body step over free rect `fr`, with the
perfect-fit early return modelled by an `Except` short circuit. -/
def findStep (p : MaxRectsPacker) (w h : Nat) (acc : FindAcc) (fr : Rect) :
    Except (Rect × Bool) FindAcc := do
  let acc ←
    if fr.w ≥ w ∧ fr.h ≥ h then do
      let (s1, s2) := p.scoreMR fr w h
      let top := fr.y + h
      let acc :=
        if s1 < acc.s1 ∨ (s1 = acc.s1 ∧ (s2 < acc.s2 ∨ (s2 = acc.s2 ∧
            (top < acc.top ∨ (top = acc.top ∧ fr.x < acc.left))))) then
          ⟨s1, s2, top, fr.x, ⟨fr.x, fr.y, w, h⟩, false⟩
        else acc
      if fr.w = w ∧ fr.h = h then
        Except.error (⟨fr.x, fr.y, w, h⟩, false)
      else pure acc
    else pure acc
  if p.config.allow_rotation ∧ fr.w ≥ h ∧ fr.h ≥ w then do
    let (s1, s2) := p.scoreMR fr h w
    let top := fr.y + w
    let acc :=
      if s1 < acc.s1 ∨ (s1 = acc.s1 ∧ (s2 < acc.s2 ∨ (s2 = acc.s2 ∧
          (top < acc.top ∨ (top = acc.top ∧ fr.x < acc.left))))) then
        ⟨s1, s2, top, fr.x, ⟨fr.x, fr.y, h, w⟩, true⟩
      else acc
    if fr.w = h ∧ fr.h = w then
      Except.error (⟨fr.x, fr.y, h, w⟩, true)
    else pure acc
  else pure acc

/-- `MaxRectsPacker::find_position`. -/
def find_position (p : MaxRectsPacker) (w h : Nat) : Option (Rect × Bool) :=
  let init : FindAcc :=
    ⟨2147483647, 2147483647, 4294967295, 4294967295, ⟨0, 0, 0, 0⟩, false⟩
  match p.free.foldlM (findStep p w h) init with
  | Except.error hit => some hit
  | Except.ok acc =>
    if acc.rect.w = 0 ∨ acc.rect.h = 0 then none else some (acc.rect, acc.rot)

/-- `MaxRectsPacker::split_free_node_ref` (reference SplitFreeNode cuts). -/
def split_free_node_ref (fr node : Rect) : List Rect :=
  let fr_x2 := fr.x + fr.w
  let fr_y2 := fr.y + fr.h
  let n_x2 := node.x + node.w
  let n_y2 := node.y + node.h
  let out : List Rect := []
  let out :=
    if node.x > fr.x ∧ node.x < fr_x2 then out ++ [⟨fr.x, fr.y, node.x - fr.x, fr.h⟩]
    else out
  let out := if n_x2 < fr_x2 then out ++ [⟨n_x2, fr.y, fr_x2 - n_x2, fr.h⟩] else out
  let out :=
    if node.y > fr.y ∧ node.y < fr_y2 then out ++ [⟨fr.x, fr.y, fr.w, node.y - fr.y⟩]
    else out
  if n_y2 < fr_y2 then out ++ [⟨fr.x, n_y2, fr.w, fr_y2 - n_y2⟩] else out

/-- `place_rect_ref`'s first loop: repeatedly `swap_remove` intersecting free
rects (re-examining the swapped-in element) and collect their reference splits;
loop variant `free.length - i`. -/
def collectIntersecting : Nat → List Rect → Rect → Nat → List Rect →
    List Rect × List Rect
  | 0, free, _, _, out => (free, out)
  | fuel + 1, free, node, i, out =>
    if h : i < free.length then
      let fr := free.get ⟨i, h⟩
      if rectsIntersect fr node then
        collectIntersecting fuel (swapRemove free i) node i
          (out ++ split_free_node_ref fr node)
      else collectIntersecting fuel free node (i + 1) out
    else (free, out)

/-- `prune_new_vs_old` second loop: `swap_remove` old free rects contained in a
new rect; loop variant `free.length - i`. -/
def removeOldContained : Nat → List Rect → List Rect → Nat → List Rect
  | 0, free, _, _ => free
  | fuel + 1, free, newFree, i =>
    if h : i < free.length then
      if newFree.any fun nr => nr.contains (free.get ⟨i, h⟩) then
        removeOldContained fuel (swapRemove free i) newFree i
      else removeOldContained fuel free newFree (i + 1)
    else free

/-- `prune_within` loop: `swap_remove` entries contained in a different entry;
loop variant `v.length - i`. -/
def pruneWithin : Nat → List Rect → Nat → List Rect
  | 0, v, _ => v
  | fuel + 1, v, i =>
    if h : i < v.length then
      let a := v.get ⟨i, h⟩
      let dominated := (List.range v.length).any fun j =>
        j ≠ i && insideEx a (v.getD j ⟨0, 0, 0, 0⟩)
      if dominated then pruneWithin fuel (swapRemove v i) i
      else pruneWithin fuel v (i + 1)
    else v

/-- `MaxRectsPacker::place_rect_ref`. -/
def place_rect_ref (p : MaxRectsPacker) (node : Rect) : MaxRectsPacker :=
  let (free1, newFree) :=
    collectIntersecting (p.free.length + 1) p.free node 0 []
  -- prune_new_vs_old: drop new rects contained in an existing free rect or empty
  let newFree1 := newFree.filter fun nr =>
    !(free1.any fun ofr => ofr.contains nr) && nr.w > 0 && nr.h > 0
  let free2 := removeOldContained (free1.length + 1) free1 newFree1 0
  let newFree2 := pruneWithin (newFree1.length + 1) newFree1 0
  let free3 := pruneFreeList (free2 ++ newFree2)
  { p with free := free3, used := p.used ++ [node] }

/-- `MaxRectsPacker::place_rect` (subtractive default, or reference variant
when `mr_reference`). -/
def place_rect (p : MaxRectsPacker) (node : Rect) : MaxRectsPacker :=
  if p.config.mr_reference then p.place_rect_ref node
  else
    let new_free := p.free.foldl
      (fun acc fr =>
        if !rectsIntersect fr node then acc ++ [fr]
        else acc ++ subtractStrips fr node)
      []
    { p with free := pruneFreeList new_free, used := p.used ++ [node] }

/-- `Packer::can_pack` for `MaxRectsPacker`. -/
def can_pack (p : MaxRectsPacker) (rect : Rect) : Bool :=
  let w := rect.w + p.config.texture_padding + p.config.texture_extrusion * 2
  let h := rect.h + p.config.texture_padding + p.config.texture_extrusion * 2
  (p.find_position w h).isSome

/-- `Packer::pack` for `MaxRectsPacker`. -/
def pack (p : MaxRectsPacker) (key : String) (rect : Rect) :
    MaxRectsPacker × Option Frame :=
  let w := rect.w + p.config.texture_padding + p.config.texture_extrusion * 2
  let h := rect.h + p.config.texture_padding + p.config.texture_extrusion * 2
  match p.find_position w h with
  | some (placeR, rotated) =>
    let p1 := p.place_rect placeR
    let fwfh := if rotated then (rect.h, rect.w) else (rect.w, rect.h)
    let pad_half := p.config.texture_padding / 2
    let off := p.config.texture_extrusion + pad_half
    let frame_rect : Rect := ⟨placeR.x + off, placeR.y + off, fwfh.1, fwfh.2⟩
    (p1, some { key, frame := frame_rect, rotated, trimmed := false,
                source := rect, source_size := (rect.w, rect.h) })
  | none => (p, none)

end MaxRectsPacker

/-! ## Skyline packer (`packer/skyline.rs`) -/

/-- `skyline.rs` `SkylineNode`. -/
structure SkylineNode where
  x : Nat
  y : Nat
  w : Nat
  deriving DecidableEq, Repr

namespace SkylineNode

/-- `SkylineNode::left`. -/
def left (s : SkylineNode) : Nat := s.x

/-- `SkylineNode::right`: `x + w.saturating_sub(1)`. -/
def right (s : SkylineNode) : Nat := s.x + (s.w - 1)

end SkylineNode

/-- `skyline.rs` `WasteMap` (free list, rotation flag and choice heuristic;
the split heuristic argument of `WasteMap::new` is unused in the source). -/
structure WasteMap where
  free : List Rect
  allow_rotation : Bool
  choice : GuillotineChoice
  deriving DecidableEq, Repr

namespace WasteMap

/-- `WasteMap::new`: the free list starts empty. -/
def new (allow_rotation : Bool) (choice : GuillotineChoice) : WasteMap :=
  { free := [], allow_rotation, choice }

/-- `WasteMap::choose`: best free rect by strict lexicographic improvement of
`score_choice`, rotated orientation tried when allowed. -/
def choose (m : WasteMap) (w h : Nat) : Option (Nat × Rect × Bool) :=
  let step := fun (acc : Option Nat × (Int × Int) × Rect × Bool) (ifr : Nat × Rect) =>
    let (i, fr) := ifr
    let acc1 :=
      if fr.w ≥ w ∧ fr.h ≥ h then
        let s := scoreChoice m.choice fr w h
        if s.1 < acc.2.1.1 ∨ (s.1 = acc.2.1.1 ∧ s.2 < acc.2.1.2) then
          (some i, s, (⟨fr.x, fr.y, w, h⟩ : Rect), false)
        else acc
      else acc
    if m.allow_rotation ∧ fr.w ≥ h ∧ fr.h ≥ w then
      let s := scoreChoice m.choice fr h w
      if s.1 < acc1.2.1.1 ∨ (s.1 = acc1.2.1.1 ∧ s.2 < acc1.2.1.2) then
        (some i, s, (⟨fr.x, fr.y, h, w⟩ : Rect), true)
      else acc1
    else acc1
  let res := m.free.enum.foldl step
    (none, ((2147483647 : Int), (2147483647 : Int)), ⟨0, 0, 0, 0⟩, false)
  match res with
  | (some i, _, r, rot) => some (i, r, rot)
  | (none, _, _, _) => none

/-- `WasteMap::can_fit`. -/
def can_fit (m : WasteMap) (w h : Nat) : Bool := (m.choose w h).isSome

/-- `WasteMap::place`: remove the chosen free rect, subtract the node from all
remaining ones, then prune and merge. -/
def place (m : WasteMap) (idx : Nat) (node : Rect) : WasteMap :=
  let free1 := swapRemove m.free idx
  let new_free := free1.foldl
    (fun acc fr =>
      if !rectsIntersect fr node then acc ++ [fr]
      else acc ++ subtractStrips fr node)
    []
  { m with free := mergeFreeList (pruneFreeList new_free) }

/-- `WasteMap::try_pack`. -/
def try_pack (m : WasteMap) (w h : Nat) : Option ((Rect × Bool) × WasteMap) :=
  match m.choose w h with
  | some (idx, r, rot) => some ((r, rot), m.place idx r)
  | none => none

/-- `WasteMap::push`. -/
def push (m : WasteMap) (r : Rect) : WasteMap :=
  if r.w > 0 ∧ r.h > 0 then { m with free := m.free ++ [r] } else m

/-- `WasteMap::add_area`: push then prune and merge. -/
def add_area (m : WasteMap) (r : Rect) : WasteMap :=
  let m1 := m.push r
  { m1 with free := mergeFreeList (pruneFreeList m1.free) }

end WasteMap

/-- `skyline.rs` `SkylinePacker` state. -/
structure SkylinePacker where
  config : PackerConfig
  border : Rect
  skylines : List SkylineNode
  heuristic : SkylineHeuristic
  waste : Option WasteMap
  deriving DecidableEq, Repr

namespace SkylinePacker

/-- `SkylinePacker::new`. -/
def new (config : PackerConfig) : SkylinePacker :=
  let pad := config.border_padding
  let w := config.max_width - pad * 2
  let h := config.max_height - pad * 2
  { config
    border := ⟨pad, pad, w, h⟩
    skylines := [⟨pad, pad, w⟩]
    heuristic := config.skyline_heuristic
    waste :=
      if config.use_waste_map then
        some (WasteMap.new config.allow_rotation config.g_choice)
      else none }

/-- Loop body of `SkylinePacker::can_put`; loop variant `skylines.length - i`. -/
def canPutGo : Nat → Rect → List SkylineNode → Nat → Rect → Nat → Option Rect
  | 0, _, _, _, _, _ => none
  | fuel + 1, border, sk, i, rect, widthLeft =>
    let s := sk.getD i ⟨0, 0, 0⟩
    let rect := { rect with y := max rect.y s.y }
    if !border.contains rect then none
    else if s.w ≥ widthLeft then some rect
    else if i + 1 ≥ sk.length then none
    else canPutGo fuel border sk (i + 1) rect (widthLeft - s.w)

/-- `SkylinePacker::can_put` (call sites always pass `i < skylines.len()`). -/
def can_put (p : SkylinePacker) (i : Nat) (w h : Nat) : Option Rect :=
  canPutGo (p.skylines.length + 1) p.border p.skylines i
    ⟨(p.skylines.getD i ⟨0, 0, 0⟩).x, 0, w, h⟩ w

/-- `SkylinePacker::find_bottom_left`. -/
def find_bottom_left (p : SkylinePacker) (w h : Nat) : Option (Nat × Rect) :=
  let step := fun (acc : Nat × Nat × Option Nat × Rect) (i : Nat) =>
    let segw := (p.skylines.getD i ⟨0, 0, 0⟩).w
    let acc1 :=
      match p.can_put i w h with
      | some r =>
        if r.bottom < acc.1 ∨ (r.bottom = acc.1 ∧ segw < acc.2.1) then
          (r.bottom, segw, some i, r)
        else acc
      | none => acc
    if p.config.allow_rotation then
      match p.can_put i h w with
      | some r =>
        if r.bottom < acc1.1 ∨ (r.bottom = acc1.1 ∧ segw < acc1.2.1) then
          (r.bottom, segw, some i, r)
        else acc1
      | none => acc1
    else acc1
  let res := (List.range p.skylines.length).foldl step
    (4294967295, 4294967295, none, ⟨0, 0, 0, 0⟩)
  match res with
  | (_, _, some i, r) => some (i, r)
  | (_, _, none, _) => none

/-- Loop body of `SkylinePacker::wasted_area_for`; variant `skylines.length - i`. -/
def wastedAreaGo : Nat → List SkylineNode → Nat → Nat → Nat → Nat → Nat
  | 0, _, _, _, _, area => area
  | fuel + 1, sk, i, widthLeft, baseY, area =>
    if widthLeft > 0 ∧ i < sk.length then
      let seg := sk.getD i ⟨0, 0, 0⟩
      let use_w := min widthLeft seg.w
      let area1 := if seg.y > baseY then area + (seg.y - baseY) * use_w else area
      wastedAreaGo fuel sk (i + 1) (widthLeft - use_w) baseY area1
    else area

/-- `SkylinePacker::wasted_area_for`. -/
def wasted_area_for (p : SkylinePacker) (start : Nat) (r : Rect) : Nat :=
  wastedAreaGo (p.skylines.length + 1) p.skylines start r.w r.y 0

/-- `SkylinePacker::find_min_waste`. -/
def find_min_waste (p : SkylinePacker) (w h : Nat) : Option (Nat × Rect) :=
  let step := fun (acc : Nat × Nat × Option Nat × Rect) (i : Nat) =>
    let acc1 :=
      match p.can_put i w h with
      | some r =>
        let waste := p.wasted_area_for i r
        if waste < acc.1 ∨ (waste = acc.1 ∧ r.bottom < acc.2.1) then
          (waste, r.bottom, some i, r)
        else acc
      | none => acc
    if p.config.allow_rotation then
      match p.can_put i h w with
      | some r =>
        let waste := p.wasted_area_for i r
        if waste < acc1.1 ∨ (waste = acc1.1 ∧ r.bottom < acc1.2.1) then
          (waste, r.bottom, some i, r)
        else acc1
      | none => acc1
    else acc1
  let res := (List.range p.skylines.length).foldl step
    (4294967295, 4294967295, none, ⟨0, 0, 0, 0⟩)
  match res with
  | (_, _, some i, r) => some (i, r)
  | (_, _, none, _) => none

/-- `SkylinePacker::find_skyline`. -/
def find_skyline (p : SkylinePacker) (w h : Nat) : Option (Nat × Rect) :=
  match p.heuristic with
  | .bottomLeft => p.find_bottom_left w h
  | .minWaste => p.find_min_waste w h

/-- Shrink loop of `SkylinePacker::split` (the scan index `i = index + 1` is
fixed; progress is by removal); loop variant `v.length`. -/
def splitShrink : Nat → List SkylineNode → Nat → List SkylineNode
  | 0, v, _ => v
  | fuel + 1, v, i =>
    if i < v.length then
      let prev := v.getD (i - 1) ⟨0, 0, 0⟩
      let cur := v.getD i ⟨0, 0, 0⟩
      if prev.left ≤ cur.left then
        if cur.left ≤ prev.right then
          let shrink := prev.right - cur.left + 1
          if cur.w ≤ shrink then splitShrink fuel (v.eraseIdx i) i
          else v.set i { cur with x := cur.x + shrink, w := cur.w - shrink }
        else v
      else v
    else v

/-- `SkylinePacker::split`. -/
def split (p : SkylinePacker) (index : Nat) (rect : Rect) : SkylinePacker :=
  let new_y := min (rect.bottom + 1) p.border.bottom
  let node : SkylineNode := ⟨rect.x, new_y, rect.w⟩
  let sk1 := p.skylines.insertIdx index node
  { p with skylines := splitShrink (sk1.length + 1) sk1 (index + 1) }

/-- Merge loop of `SkylinePacker::merge`; loop variant `v.length`. -/
def mergeGo : Nat → List SkylineNode → Nat → List SkylineNode
  | 0, v, _ => v
  | fuel + 1, v, i =>
    if i < v.length then
      let prev := v.getD (i - 1) ⟨0, 0, 0⟩
      let cur := v.getD i ⟨0, 0, 0⟩
      if prev.y = cur.y then
        mergeGo fuel ((v.set (i - 1) { prev with w := prev.w + cur.w }).eraseIdx i) i
      else mergeGo fuel v (i + 1)
    else v

/-- `SkylinePacker::merge`. -/
def merge (p : SkylinePacker) : SkylinePacker :=
  { p with skylines := mergeGo (p.skylines.length + 1) p.skylines 1 }

/-- Loop of `SkylinePacker::add_waste_areas`; loop variant `skylines.length - i`. -/
def addWasteGo : Nat → List SkylineNode → Rect → Nat → WasteMap → WasteMap
  | 0, _, _, _, wm => wm
  | fuel + 1, sk, rect, i, wm =>
    let rect_left := rect.x
    let rect_right := rect.x + rect.w
    if i < sk.length ∧ (sk.getD i ⟨0, 0, 0⟩).x < rect_right then
      let seg := sk.getD i ⟨0, 0, 0⟩
      if seg.x ≥ rect_right then wm
      else if seg.x + seg.w ≤ rect_left then wm
      else
        let left_side := max seg.x rect_left
        let right_side := min (seg.x + seg.w) rect_right
        let wm1 :=
          if seg.y < rect.y then
            let w := right_side - left_side
            let h := rect.y - seg.y
            if w > 0 ∧ h > 0 then wm.add_area ⟨left_side, seg.y, w, h⟩ else wm
          else wm
        addWasteGo fuel sk rect (i + 1) wm1
    else wm

/-- `SkylinePacker::add_waste_areas` (runs on the post-split/merge skyline,
exactly as the call order in `pack` does). -/
def add_waste_areas (p : SkylinePacker) (index : Nat) (rect : Rect) : SkylinePacker :=
  match p.waste with
  | none => p
  | some wm =>
    { p with waste := some (addWasteGo (p.skylines.length + 1) p.skylines rect index wm) }

/-- `Packer::can_pack` for `SkylinePacker`. -/
def can_pack (p : SkylinePacker) (rect : Rect) : Bool :=
  let w := rect.w + p.config.texture_padding + p.config.texture_extrusion * 2
  let h := rect.h + p.config.texture_padding + p.config.texture_extrusion * 2
  (match p.waste with
   | some wm => wm.can_fit w h
   | none => false) ||
  (p.find_skyline w h).isSome

/-- Frame construction shared by the three success paths of
`SkylinePacker::pack`. -/
def mkFrame (p : SkylinePacker) (key : String) (rect : Rect) (place : Rect)
    (rotated : Bool) : Frame :=
  let fwfh := if rotated then (rect.h, rect.w) else (rect.w, rect.h)
  let pad_half := p.config.texture_padding / 2
  let off := p.config.texture_extrusion + pad_half
  { key
    frame := ⟨place.x + off, place.y + off, fwfh.1, fwfh.2⟩
    rotated
    trimmed := false
    source := rect
    source_size := (rect.w, rect.h) }

/-- `Packer::pack` for `SkylinePacker`: waste map first, then the skyline, and
— only when `allow_rotation` is false — a swapped retry marked `rotated`. -/
def pack (p : SkylinePacker) (key : String) (rect : Rect) :
    SkylinePacker × Option Frame :=
  let w := rect.w + p.config.texture_padding + p.config.texture_extrusion * 2
  let h := rect.h + p.config.texture_padding + p.config.texture_extrusion * 2
  let fromWaste :=
    match p.waste with
    | some wm =>
      match wm.try_pack w h with
      | some ((placeR, rotated), wm1) =>
        some ({ p with waste := some wm1 }, p.mkFrame key rect placeR rotated)
      | none => none
    | none => none
  match fromWaste with
  | some (p1, f) => (p1, some f)
  | none =>
    match p.find_skyline w h with
    | some (i, placeR) =>
      let p1 := ((p.split i placeR).merge).add_waste_areas i placeR
      let rotated := w ≠ placeR.w
      (p1, some (p1.mkFrame key rect placeR rotated))
    | none =>
      if !p.config.allow_rotation then
        match p.find_skyline h w with
        | some (i, placeR) =>
          let p1 := ((p.split i placeR).merge).add_waste_areas i placeR
          (p1, some { (p1.mkFrame key rect placeR true) with rotated := true })
        | none => (p, none)
      else (p, none)

end SkylinePacker

/-! ## Packer dispatch (`packer/mod.rs` `dyn Packer<String>`) -/

/-- A boxed packer, one of the three families (`Box<dyn Packer<String>>`). -/
inductive PackerState where
  | sk (p : SkylinePacker)
  | mr (p : MaxRectsPacker)
  | gt (p : GuillotinePacker)
  deriving Repr

/-- Dynamic dispatch of `Packer::can_pack`. -/
def PackerState.can_pack : PackerState → Rect → Bool
  | .sk p, r => p.can_pack r
  | .mr p, r => p.can_pack r
  | .gt p, r => p.can_pack r

/-- Dynamic dispatch of `Packer::pack`. -/
def PackerState.pack : PackerState → String → Rect → PackerState × Option Frame
  | .sk p, k, r => let (p1, f) := p.pack k r; (.sk p1, f)
  | .mr p, k, r => let (p1, f) := p.pack k r; (.mr p1, f)
  | .gt p, k, r => let (p1, f) := p.pack k r; (.gt p1, f)

/-- Packer construction switch shared by `pack_prepared`, `pack_layout` and
`pack_layout_items`; `AlgorithmFamily::Auto` hits `unreachable!()` there. -/
def mkPackerState (cfg : PackerConfig) : Option PackerState :=
  match cfg.family with
  | .skyline => some (.sk (SkylinePacker.new cfg))
  | .maxrects => some (.mr (MaxRectsPacker.new cfg cfg.mr_heuristic))
  | .guillotine => some (.gt (GuillotinePacker.new cfg cfg.g_choice cfg.g_split))
  | .auto => none

/-! ## Images and the trim detector (`pipeline.rs::compute_trim_rect`) -/

/-- One RGBA pixel (`image::Rgba<u8>`). -/
structure Rgba where
  r : Nat
  g : Nat
  b : Nat
  a : Nat
  deriving DecidableEq, Repr

/-- `image::RgbaImage`: dimensions plus a pixel function (reads outside the
bounds never occur in the embedded code paths). -/
structure Image where
  width : Nat
  height : Nat
  pix : Nat → Nat → Rgba

/-- Column `x` has only pixels with `alpha <= threshold` (the `for y` loops of
`compute_trim_rect` with their early break). -/
def colTrans (img : Image) (t x : Nat) : Bool :=
  (List.range img.height).all fun y => (img.pix x y).a ≤ t

/-- Row `y` restricted to `x1..=x2` has only pixels with `alpha <= threshold`. -/
def rowTrans (img : Image) (t x1 x2 y : Nat) : Bool :=
  (List.range (x2 + 1 - x1)).all fun dx => (img.pix (x1 + dx) y).a ≤ t

/-- Left scan of `compute_trim_rect`; loop variant `width - x1`. -/
def scanLeft : Nat → Image → Nat → Nat → Nat
  | 0, _, _, x1 => x1
  | fuel + 1, img, t, x1 =>
    if x1 < img.width then
      if colTrans img t x1 then scanLeft fuel img t (x1 + 1) else x1
    else x1

/-- Right scan; loop variant `x2`. -/
def scanRight : Nat → Image → Nat → Nat → Nat → Nat
  | 0, _, _, _, x2 => x2
  | fuel + 1, img, t, x1, x2 =>
    if x2 > x1 then
      if colTrans img t x2 then scanRight fuel img t x1 (x2 - 1) else x2
    else x2

/-- Top scan; loop variant `height - y1`. -/
def scanTop : Nat → Image → Nat → Nat → Nat → Nat → Nat
  | 0, _, _, _, _, y1 => y1
  | fuel + 1, img, t, x1, x2, y1 =>
    if y1 < img.height then
      if rowTrans img t x1 x2 y1 then scanTop fuel img t x1 x2 (y1 + 1) else y1
    else y1

/-- Bottom scan; loop variant `y2`. -/
def scanBottom : Nat → Image → Nat → Nat → Nat → Nat → Nat → Nat
  | 0, _, _, _, _, _, y2 => y2
  | fuel + 1, img, t, x1, x2, y1, y2 =>
    if y2 > y1 then
      if rowTrans img t x1 x2 y2 then scanBottom fuel img t x1 x2 y1 (y2 - 1) else y2
    else y2

/-- `pipeline.rs::compute_trim_rect`: shrink the bounding box from each side
while the edge is fully `alpha <= threshold`; `(None, full)` when every column
is transparent. -/
def compute_trim_rect (img : Image) (threshold : Nat) : Option Rect × Rect :=
  let w := img.width
  let h := img.height
  let x1 := scanLeft (w + 1) img threshold 0
  if x1 ≥ w then (none, ⟨0, 0, w, h⟩)
  else
    let x2 := scanRight (w + 1) img threshold x1 (w - 1)
    let y1 := scanTop (h + 1) img threshold x1 x2 0
    let y2 := scanBottom (h + 1) img threshold x1 x2 y1 (h - 1)
    let tw := x2 - x1 + 1
    let th := y2 - y1 + 1
    (some ⟨0, 0, tw, th⟩, ⟨x1, y1, tw, th⟩)

/-! ## Offline pipeline (`pipeline.rs`) -/

/-- Geometry fields of a prepared input (`PrepL` in `pack_layout`; the `Prep`
of `pack_images` adds the decoded bitmap). -/
structure PrepL where
  key : String
  rect : Rect
  trimmed : Bool
  source : Rect
  orig_size : Nat × Nat
  deriving DecidableEq, Repr

/-- `pack_images` prepared input (`Prep`): geometry plus the RGBA bitmap. -/
structure Prep where
  key : String
  rgba : Image
  rect : Rect
  trimmed : Bool
  source : Rect
  orig_size : Nat × Nat

/-- Geometry projection of a `Prep`. Inside `pack_prepared` the `rgba` field
feeds only the composited `OutputPage` bitmaps, never the `Page` records, so
the atlas geometry factors through this projection. -/
def Prep.geom (p : Prep) : PrepL :=
  ⟨p.key, p.rect, p.trimmed, p.source, p.orig_size⟩

/-- The `sort_by` comparator for each `SortOrder`, applied to the key and rect
of a prepared item (identical in `prepare_inputs`, `pack_layout` and
`pack_layout_items`). -/
def prepCmp (order : SortOrder) (ka : String) (ra : Rect) (kb : String)
    (rb : Rect) : Ordering :=
  match order with
  | .noSort => .eq
  | .nameAsc => strCmp ka kb
  | .areaDesc => (natCmp (rb.w * rb.h) (ra.w * ra.h)).then (strCmp ka kb)
  | .maxSideDesc => (natCmp (max rb.w rb.h) (max ra.w ra.h)).then (strCmp ka kb)
  | .heightDesc => (natCmp rb.h ra.h).then (strCmp ka kb)
  | .widthDesc => (natCmp rb.w ra.w).then (strCmp ka kb)

/-- Stable sort of layout preps (`SortOrder::None` leaves the list as is). -/
def sortPrepL (order : SortOrder) (l : List PrepL) : List PrepL :=
  match order with
  | .noSort => l
  | _ => sortStable (fun a b => prepCmp order a.key a.rect b.key b.rect ≠ .gt) l

/-- Stable sort of image preps. -/
def sortPrep (order : SortOrder) (l : List Prep) : List Prep :=
  match order with
  | .noSort => l
  | _ => sortStable (fun a b => prepCmp order a.key a.rect b.key b.rect ≠ .gt) l

/-- One full sweep of the remaining items (the `for &idx in &remaining` body):
items that `can_pack` rejects or `pack` fails on are kept, placed items are
turned into frames patched with the prep's trim metadata. -/
def passOnce (packer : PackerState) (items : List PrepL) :
    PackerState × List Frame × List PrepL :=
  items.foldl
    (fun (acc : PackerState × List Frame × List PrepL) p =>
      let (pk, frames, kept) := acc
      if !pk.can_pack p.rect then (pk, frames, kept ++ [p])
      else
        match pk.pack p.key p.rect with
        | (pk1, some f) =>
          let f1 := { f with trimmed := p.trimmed, source := p.source,
                             source_size := p.orig_size }
          (pk1, frames ++ [f1], kept)
        | (pk1, none) => (pk1, frames, kept ++ [p]))
    (packer, [], [])

/-- The inner `loop`: sweep until a sweep places nothing; loop variant
`items.length` (every productive sweep strictly shrinks the item list). -/
def passLoop : Nat → PackerState → List PrepL →
    PackerState × List Frame × List PrepL
  | 0, packer, items => (packer, [], items)
  | fuel + 1, packer, items =>
    let (pk1, frames, kept) := passOnce packer items
    if frames.isEmpty then (pk1, [], items)
    else
      let (pk2, frames2, kept2) := passLoop fuel pk1 kept
      (pk2, frames ++ frames2, kept2)

/-- Final page dimension computation of `pack_prepared` / `pack_layout` /
`pack_layout_items` (identical in the three): max frame extents plus the
right/bottom reserved margin, pow2 rounding, square equalisation — with
`force_max_dimensions` only seeding the running maximum. -/
def finalizePageSize (cfg : PackerConfig) (frames : List Frame) : Nat × Nat :=
  let pad_half := cfg.texture_padding / 2
  let pad_rem := cfg.texture_padding - pad_half
  let right_extra := cfg.texture_extrusion + pad_rem
  let bottom_extra := cfg.texture_extrusion + pad_rem
  let w0 := if cfg.force_max_dimensions then cfg.max_width else 0
  let h0 := if cfg.force_max_dimensions then cfg.max_height else 0
  let page_w := frames.foldl
    (fun acc f => max acc (f.frame.right + 1 + right_extra + cfg.border_padding)) w0
  let page_h := frames.foldl
    (fun acc f => max acc (f.frame.bottom + 1 + bottom_extra + cfg.border_padding)) h0
  let page_w := if cfg.power_of_two then nextPow2 (max page_w 1) else page_w
  let page_h := if cfg.power_of_two then nextPow2 (max page_h 1) else page_h
  if cfg.square then (max page_w page_h, max page_w page_h) else (page_w, page_h)

/-- Page-building `while !remaining.is_empty()` loop, shared verbatim between
`pack_prepared`, `pack_layout` and `pack_layout_items`; loop variant
`remaining.length` (each page must place at least one item or error). -/
def pagesLoop (cfg : PackerConfig) :
    Nat → List PrepL → Nat → List Page → Except TexPackerError (List Page)
  | 0, _, _, _ => .error .panicked
  | fuel + 1, remaining, page_id, acc =>
    if remaining.isEmpty then .ok acc
    else
      match mkPackerState cfg with
      | none => .error .panicked
      | some packer =>
        let (_, frames, remaining1) := passLoop (remaining.length + 1) packer remaining
        if frames.isEmpty then .error .outOfSpace
        else
          let (pw, ph) := finalizePageSize cfg frames
          pagesLoop cfg fuel remaining1 (page_id + 1)
            (acc ++ [{ id := page_id, width := pw, height := ph, frames }])

/-- The `Meta` value built by `pack_prepared` / `pack_layout` /
`pack_layout_items` (identical in the three). -/
def mkMeta (cfg : PackerConfig) : Meta where
  schema_version := "1"
  app := "tex-packer"
  version := cargoPkgVersion
  format := "RGBA8888"
  scale := 1
  power_of_two := cfg.power_of_two
  square := cfg.square
  max_dim := (cfg.max_width, cfg.max_height)
  padding := (cfg.border_padding, cfg.texture_padding)
  extrude := cfg.texture_extrusion
  allow_rotation := cfg.allow_rotation
  trim_mode := if cfg.trim then "trim" else "none"
  background_color := none

/-- `pipeline.rs::pack_layout` (atlas result). -/
def pack_layout (inputs : List (String × Nat × Nat)) (cfg : PackerConfig) :
    Except TexPackerError Atlas :=
  if inputs.isEmpty then .error .empty
  else
    let prepared : List PrepL := inputs.map fun (k, w, h) =>
      { key := k, rect := ⟨0, 0, w, h⟩, trimmed := false,
        source := ⟨0, 0, w, h⟩, orig_size := (w, h) }
    let prepared := sortPrepL cfg.sort_order prepared
    match pagesLoop cfg (prepared.length + 1) prepared 0 [] with
    | .error e => .error e
    | .ok pages => .ok { pages, meta := mkMeta cfg }

/-- `pipeline.rs::InputImage`. -/
structure InputImage where
  key : String
  image : Image

/-- `pipeline.rs::prepare_inputs`: trim (when enabled) then stable sort. -/
def prepare_inputs (inputs : List InputImage) (cfg : PackerConfig) : List Prep :=
  let out := inputs.map fun inp =>
    let iw := inp.image.width
    let ih := inp.image.height
    let rts :=
      if cfg.trim then
        match compute_trim_rect inp.image cfg.trim_threshold with
        | (some r, src) => ((⟨0, 0, r.w, r.h⟩ : Rect), true, src)
        | (none, _) => ((⟨0, 0, iw, ih⟩ : Rect), false, (⟨0, 0, iw, ih⟩ : Rect))
      else ((⟨0, 0, iw, ih⟩ : Rect), false, (⟨0, 0, iw, ih⟩ : Rect))
    { key := inp.key, rgba := inp.image, rect := rts.1, trimmed := rts.2.1,
      source := rts.2.2, orig_size := (iw, ih) }
  sortPrep cfg.sort_order out

/-- Atlas part of `pipeline.rs::pack_prepared`. The composited RGBA canvases
(`OutputPage.rgba`) are produced from the already-fixed frames and never feed
back into the returned `Page` records, so the atlas factors through
`Prep.geom`. -/
def pack_prepared_atlas (prepared : List Prep) (cfg : PackerConfig) :
    Except TexPackerError Atlas :=
  let geo := prepared.map Prep.geom
  match pagesLoop cfg (geo.length + 1) geo 0 [] with
  | .error e => .error e
  | .ok pages => .ok { pages, meta := mkMeta cfg }

/-- Candidate list and best-result reduction of `pipeline.rs::pack_auto`. The
sequential path is modelled with the wall-clock budget check never firing
(with `time_budget_ms` `None` or `0` the source never skips either). -/
def pack_auto_atlas (prepared : List Prep) (base : PackerConfig) :
    Except TexPackerError Atlas :=
  let n_inputs := prepared.length
  let budget_ms := base.time_budget_ms.getD 0
  let thr_time := base.auto_mr_ref_time_ms_threshold.getD 200
  let thr_inputs := base.auto_mr_ref_input_threshold.getD 800
  let enable_mr_ref := base.auto_mode = .quality ∧
    (budget_ms ≥ thr_time ∨ n_inputs ≥ thr_inputs)
  let candidates : List PackerConfig :=
    match base.auto_mode with
    | .fast =>
      [{ base with family := .skyline, skyline_heuristic := .bottomLeft },
       { base with family := .maxrects, mr_heuristic := .bestAreaFit,
                   mr_reference := false }]
    | .quality =>
      [{ base with family := .skyline, skyline_heuristic := .minWaste },
       { base with family := .maxrects, mr_heuristic := .bestAreaFit,
                   mr_reference := enable_mr_ref },
       { base with family := .maxrects, mr_heuristic := .bottomLeft,
                   mr_reference := enable_mr_ref },
       { base with family := .maxrects, mr_heuristic := .contactPoint,
                   mr_reference := enable_mr_ref },
       { base with family := .guillotine, g_choice := .bestAreaFit,
                   g_split := .splitShorterLeftoverAxis }]
  let best := candidates.foldl
    (fun (best : Option (Atlas × Nat × Nat)) cand =>
      match pack_prepared_atlas prepared cand with
      | .error _ => best
      | .ok out =>
        let pages := out.pages.length
        let total_area := out.pages.foldl (fun a p => a + p.width * p.height) 0
        match best with
        | none => some (out, total_area, pages)
        | some (bo, barea, bpages) =>
          if pages < bpages ∨ (pages = bpages ∧ total_area < barea) then
            some (out, total_area, pages)
          else some (bo, barea, bpages))
    none
  match best with
  | some (out, _, _) => .ok out
  | none => .error .outOfSpace

/-- Atlas part of `pipeline.rs::pack_images`. -/
def pack_images_atlas (inputs : List InputImage) (cfg : PackerConfig) :
    Except TexPackerError Atlas :=
  if inputs.isEmpty then .error .empty
  else
    let prepared := prepare_inputs inputs cfg
    if cfg.family = .auto then pack_auto_atlas prepared cfg
    else pack_prepared_atlas prepared cfg

/-! ## Runtime session (`runtime.rs`) -/

/-- In-place update at an index (`&mut v[i]`). -/
def modifyIdx {α : Type} (f : α → α) : Nat → List α → List α
  | _, [] => []
  | 0, x :: xs => f x :: xs
  | n + 1, x :: xs => x :: modifyIdx f n xs

/-- `runtime.rs` `ShelfPolicy`. -/
inductive ShelfPolicy where
  | nextFit | firstFit
  deriving DecidableEq, Repr

/-- `runtime.rs` `RuntimeStrategy` (this revision has Guillotine and Shelf). -/
inductive RuntimeStrategy where
  | guillotine
  | shelf (policy : ShelfPolicy)
  deriving DecidableEq, Repr

/-- `runtime.rs` `Shelf`: a horizontal band with free `(x, w)` segments. -/
structure Shelf where
  y : Nat
  h : Nat
  segs : List (Nat × Nat)
  deriving DecidableEq, Repr

/-- `runtime.rs` `RtMode`. -/
inductive RtMode where
  | guillotine (free : List Rect) (choice : GuillotineChoice) (split : GuillotineSplit)
  | shelf (border : Rect) (policy : ShelfPolicy) (shelves : List Shelf) (next_y : Nat)
  deriving DecidableEq, Repr

/-- `runtime.rs` `RtPage`. The `used` HashMap is an association list with
overwrite-on-insert; its iteration order is never observed by the embedded
claims. -/
structure RtPage where
  id : Nat
  width : Nat
  height : Nat
  used : List (String × Rect × Bool × Frame)
  allow_rotation : Bool
  mode : RtMode
  deriving DecidableEq, Repr

/-- `runtime.rs` `AtlasSession`. -/
structure AtlasSession where
  cfg : PackerConfig
  strategy : RuntimeStrategy
  pages : List RtPage
  next_id : Nat
  deriving Repr

namespace AtlasSession

/-- `AtlasSession::new`. -/
def new (cfg : PackerConfig) (strategy : RuntimeStrategy) : AtlasSession :=
  { cfg, strategy, pages := [], next_id := 0 }

/-- `AtlasSession::new_page`: allocates the next dense id (incrementing
`next_id` unconditionally) and a fresh packer state. -/
def new_page (s : AtlasSession) : AtlasSession × RtPage :=
  let id := s.next_id
  let s1 := { s with next_id := s.next_id + 1 }
  let pad := s.cfg.border_padding
  let w := s.cfg.max_width - pad * 2
  let h := s.cfg.max_height - pad * 2
  let mode :=
    match s.strategy with
    | .guillotine => RtMode.guillotine [⟨pad, pad, w, h⟩] s.cfg.g_choice s.cfg.g_split
    | .shelf policy => RtMode.shelf ⟨pad, pad, w, h⟩ policy [] pad
  (s1, { id, width := s.cfg.max_width, height := s.cfg.max_height, used := [],
         allow_rotation := s.cfg.allow_rotation, mode })

end AtlasSession

/-- `runtime.rs::choose_shelf`. -/
def choose_shelf (allow_rot : Bool) (border : Rect) (policy : ShelfPolicy)
    (shelves : List Shelf) (next_y : Nat) (w h : Nat) : Option (Rect × Bool) :=
  let try_in := fun (rw rh : Nat) =>
    match policy with
    | .firstFit =>
      shelves.findSome? fun sh =>
        if rh ≤ sh.h then
          match sh.segs.find? (fun (sx, sw) => sw ≥ rw ∧ sx + rw ≤ border.x + border.w) with
          | some (sx, _) => some (⟨sx, sh.y, rw, rh⟩ : Rect)
          | none => none
        else none
    | .nextFit =>
      match shelves.getLast? with
      | some sh =>
        if rh ≤ sh.h then
          match sh.segs.find? (fun (sx, sw) => sw ≥ rw ∧ sx + rw ≤ border.x + border.w) with
          | some (sx, _) => some (⟨sx, sh.y, rw, rh⟩ : Rect)
          | none => none
        else none
      | none => none
  match try_in w h with
  | some r => some (r, false)
  | none =>
    match (if allow_rot then try_in h w else none) with
    | some r => some (r, true)
    | none =>
      let try_new := fun (rw rh : Nat) =>
        if rw ≤ border.w ∧ next_y + rh ≤ border.y + border.h then
          some (⟨border.x, next_y, rw, rh⟩ : Rect)
        else none
      match try_new w h with
      | some r => some (r, false)
      | none =>
        match (if allow_rot then try_new h w else none) with
        | some r => some (r, true)
        | none => none

/-- Segment-consumption loop of `runtime.rs::consume_from_shelf`; loop variant
`segs.length - i` (the hit case breaks). -/
def consumeSegs : Nat → List (Nat × Nat) → Rect → List (Nat × Nat)
  | 0, segs, _ => segs
  | fuel + 1, segs, slot =>
    match segs with
    | [] => []
    | (sx, sw) :: rest =>
      if slot.x ≥ sx ∧ slot.x + slot.w ≤ sx + sw then
        let left_w := slot.x - sx
        let right_x := slot.x + slot.w
        let right_w := (sx + sw) - right_x
        let out := rest
        let out := if left_w > 0 then out ++ [(sx, left_w)] else out
        if right_w > 0 then out ++ [(right_x, right_w)] else out
      else (sx, sw) :: consumeSegs fuel rest slot

/-- `runtime.rs::merge_shelf_segments`: stable sort by `x`, then coalesce
contiguous segments. -/
def merge_shelf_segments (segs : List (Nat × Nat)) : List (Nat × Nat) :=
  let sorted := sortStable (fun a b => a.1 ≤ b.1) segs
  sorted.foldl
    (fun out (xw : Nat × Nat) =>
      match out.getLast? with
      | some (lx, lw) =>
        if lx + lw = xw.1 then out.dropLast ++ [(lx, lw + xw.2)]
        else out ++ [xw]
      | none => out ++ [xw])
    []

/-- `runtime.rs::consume_from_shelf`. -/
def consume_from_shelf (sh : Shelf) (slot : Rect) (border : Rect) : Shelf :=
  let segs1 := consumeSegs (sh.segs.length + 1) sh.segs slot
  let segs2 := merge_shelf_segments segs1
  { sh with
    segs := segs2.filter fun (x, w) =>
      w > 0 ∧ x ≥ border.x ∧ x + w ≤ border.x + border.w }

namespace RtPage

/-- `RtPage::choose`. -/
def choose (p : RtPage) (w h : Nat) : Option (Rect × Bool) :=
  match p.mode with
  | .guillotine free choice _ =>
    let step := fun (acc : Option Nat × (Int × Int) × Rect × Bool) (ifr : Nat × Rect) =>
      let (i, fr) := ifr
      let acc1 :=
        if fr.w ≥ w ∧ fr.h ≥ h then
          let s := scoreChoice choice fr w h
          if s.1 < acc.2.1.1 ∨ (s.1 = acc.2.1.1 ∧ s.2 < acc.2.1.2) then
            (some i, s, (⟨fr.x, fr.y, w, h⟩ : Rect), false)
          else acc
        else acc
      if p.allow_rotation ∧ fr.w ≥ h ∧ fr.h ≥ w then
        let s := scoreChoice choice fr h w
        if s.1 < acc1.2.1.1 ∨ (s.1 = acc1.2.1.1 ∧ s.2 < acc1.2.1.2) then
          (some i, s, (⟨fr.x, fr.y, h, w⟩ : Rect), true)
        else acc1
      else acc1
    let res := free.enum.foldl step
      (none, ((2147483647 : Int), (2147483647 : Int)), ⟨0, 0, 0, 0⟩, false)
    match res with
    | (some _, _, r, rot) => some (r, rot)
    | (none, _, _, _) => none
  | .shelf border policy shelves next_y =>
    choose_shelf p.allow_rotation border policy shelves next_y w h

/-- `RtPage::place`. -/
def place (p : RtPage) (key : String) (slot : Rect) (frame : Frame)
    (rotated : Bool) : RtPage :=
  let p1 :=
    match p.mode with
    | .guillotine free choice split =>
      let idx := free.findIdx? fun (fr : Rect) =>
        fr.x = slot.x ∧ fr.y = slot.y ∧ fr.w ≥ slot.w ∧ fr.h ≥ slot.h
      match idx with
      | some i =>
        let fr := free.getD i ⟨0, 0, 0, 0⟩
        let free1 := swapRemove free i
        let (a, b) := splitRect split fr slot
        let free2 := match a with | some r => free1 ++ [r] | none => free1
        let free3 := match b with | some r => free2 ++ [r] | none => free2
        { p with mode := .guillotine (mergeFreeList (pruneFreeList free3)) choice split }
      | none => p
    | .shelf border policy shelves next_y =>
      match shelves.findIdx? (fun (sh : Shelf) => sh.y = slot.y ∧ sh.h ≥ slot.h) with
      | some i =>
        let sh := shelves.getD i ⟨0, 0, []⟩
        let shelves1 := modifyIdx (fun _ => consume_from_shelf sh slot border) i shelves
        { p with mode := .shelf border policy shelves1 next_y }
      | none =>
        let sh : Shelf := { y := slot.y, h := slot.h, segs := [(border.x, border.w)] }
        let sh1 := consume_from_shelf sh slot border
        { p with
            mode := .shelf border policy (shelves ++ [sh1]) (max next_y (slot.y + slot.h)) }
  { p1 with used := (p1.used.filter fun e => e.1 ≠ key) ++ [(key, slot, rotated, frame)] }

/-- `RtPage::add_free`. -/
def add_free (p : RtPage) (r : Rect) : RtPage :=
  match p.mode with
  | .guillotine free choice split =>
    { p with mode := .guillotine (mergeFreeList (pruneFreeList (free ++ [r]))) choice split }
  | .shelf border policy shelves next_y =>
    match shelves.findIdx? (fun (sh : Shelf) => sh.y = r.y ∧ sh.h = r.h) with
    | some i =>
      let shelves1 := modifyIdx
        (fun sh => { sh with segs := merge_shelf_segments (sh.segs ++ [(r.x, r.w)]) })
        i shelves
      { p with mode := .shelf border policy shelves1 next_y }
    | none =>
      let shelves1 := shelves ++ [{ y := r.y, h := r.h, segs := [(r.x, r.w)] }]
      { p with mode := .shelf border policy shelves1 next_y }

end RtPage

namespace AtlasSession

/-- `AtlasSession::make_frame`: the frame keeps `(w, h)` unswapped even for a
rotated slot, exactly as the source does. -/
def make_frame (s : AtlasSession) (key : String) (w h : Nat) (slot : Rect)
    (rotated : Bool) : Frame :=
  let pad_half := s.cfg.texture_padding / 2
  let off := s.cfg.texture_extrusion + pad_half
  { key
    frame := ⟨slot.x + off, slot.y + off, w, h⟩
    rotated
    trimmed := false
    source := ⟨0, 0, w, h⟩
    source_size := (w, h) }

/-- `AtlasSession::append`: try existing pages in order, else grow a page
(whose id was already allocated) and place there, else fail. -/
def append (s : AtlasSession) (key : String) (w h : Nat) :
    AtlasSession × Except TexPackerError (Nat × Frame) :=
  let reserve_w := w + s.cfg.texture_extrusion * 2 + s.cfg.texture_padding
  let reserve_h := h + s.cfg.texture_extrusion * 2 + s.cfg.texture_padding
  let hit := s.pages.enum.findSome? fun (idx, p) =>
    match p.choose reserve_w reserve_h with
    | some (slot, rotated) => some (idx, p.id, slot, rotated)
    | none => none
  match hit with
  | some (idx, id, slot, rotated) =>
    let frame := s.make_frame key w h slot rotated
    let s1 := { s with pages := modifyIdx (fun p => p.place key slot frame rotated) idx s.pages }
    (s1, .ok (id, frame))
  | none =>
    let (s1, page) := s.new_page
    match page.choose reserve_w reserve_h with
    | some (slot, rotated) =>
      let frame := s1.make_frame key w h slot rotated
      let page1 := page.place key slot frame rotated
      ({ s1 with pages := s1.pages ++ [page1] }, .ok (page.id, frame))
    | none => (s1, .error .outOfSpace)

/-- `AtlasSession::evict`. -/
def evict (s : AtlasSession) (page_id : Nat) (key : String) :
    AtlasSession × Bool :=
  match s.pages.findIdx? (fun (p : RtPage) => p.id = page_id) with
  | some idx =>
    let p := s.pages.getD idx ⟨0, 0, 0, [], false, .guillotine [] .bestAreaFit .splitShorterLeftoverAxis⟩
    match p.used.find? (fun e => e.1 = key) with
    | some (_, slot, _, _) =>
      let p1 := { p with used := p.used.filter fun e => e.1 ≠ key }
      let p2 := p1.add_free slot
      ({ s with pages := modifyIdx (fun _ => p2) idx s.pages }, true)
    | none => (s, false)
  | none => (s, false)

/-- Modelled from the spec: `AtlasSession::get_frame` is absent from this
revision of `runtime.rs` (only its callers in `runtime_atlas.rs` and the
prelude re-export remain); per §4.8 "Query: `get_frame(key) → (page_id,
frame)`" it returns the page id and frame record of the key's reservation. -/
def get_frame (s : AtlasSession) (key : String) : Option (Nat × Frame) :=
  s.pages.findSome? fun p =>
    match p.used.find? (fun e => e.1 = key) with
    | some (_, _, _, f) => some (p.id, f)
    | none => none

/-- Modelled from the spec: `AtlasSession::evict_by_key` is absent from this
revision of `runtime.rs`; per §4.8 it removes the key's record from its page
and returns the reserved slot to the packer's free structure. -/
def evict_by_key (s : AtlasSession) (key : String) : AtlasSession × Bool :=
  match s.get_frame key with
  | some (page_id, _) => s.evict page_id key
  | none => (s, false)

end AtlasSession

/-! ## Runtime atlas with pixels (`runtime_atlas.rs`) -/

/-- `runtime_atlas.rs` `UpdateRegion`. -/
structure UpdateRegion where
  page_id : Nat
  x : Nat
  y : Nat
  width : Nat
  height : Nat
  deriving DecidableEq, Repr

/-- `UpdateRegion::empty`. -/
def UpdateRegion.empty : UpdateRegion := ⟨0, 0, 0, 0, 0⟩

/-- `RgbaImage::from_pixel`. -/
def Image.fromPixel (w h : Nat) (c : Rgba) : Image :=
  { width := w, height := h, pix := fun _ _ => c }

/-- `runtime_atlas.rs` `RuntimeAtlas`. -/
structure RuntimeAtlas where
  session : AtlasSession
  pages : List Image
  background_color : Rgba

namespace RuntimeAtlas

/-- `RuntimeAtlas::new` (transparent background by default). -/
def new (cfg : PackerConfig) (strategy : RuntimeStrategy) : RuntimeAtlas :=
  { session := AtlasSession.new cfg strategy, pages := [],
    background_color := ⟨0, 0, 0, 0⟩ }

/-- `RuntimeAtlas::with_background_color`. -/
def with_background_color (a : RuntimeAtlas) (c : Rgba) : RuntimeAtlas :=
  { a with background_color := c }

/-- `RuntimeAtlas::ensure_page`: push fresh background pages until `page_id`
exists; loop variant `page_id + 1 - pages.length`. -/
def ensurePageGo : Nat → RuntimeAtlas → Nat → RuntimeAtlas
  | 0, a, _ => a
  | fuel + 1, a, page_id =>
    if a.pages.length ≤ page_id then
      ensurePageGo fuel
        { a with pages := a.pages ++
            [Image.fromPixel a.session.cfg.max_width a.session.cfg.max_height
              a.background_color] }
        page_id
    else a

/-- `RuntimeAtlas::ensure_page`. -/
def ensure_page (a : RuntimeAtlas) (page_id : Nat) : RuntimeAtlas :=
  ensurePageGo (page_id + 2) a page_id

/-- The pixel function after `RuntimeAtlas::blit_to_page` wrote `image` at the
frame position: each target inside the page is written exactly once by the
source's double loop, rotated targets read `(src_w - 1 - x, y)` transposed. -/
def blitPix (page : Image) (img : Image) (dx dy : Nat) (rotated : Bool) :
    Nat → Nat → Rgba :=
  fun px py =>
    if rotated then
      if dx ≤ px ∧ px < dx + img.height ∧ dy ≤ py ∧ py < dy + img.width ∧
          px < page.width ∧ py < page.height then
        img.pix (img.width - 1 - (py - dy)) (px - dx)
      else page.pix px py
    else
      if dx ≤ px ∧ px < dx + img.width ∧ dy ≤ py ∧ py < dy + img.height ∧
          px < page.width ∧ py < page.height then
        img.pix (px - dx) (py - dy)
      else page.pix px py

/-- `RuntimeAtlas::blit_to_page`. -/
def blit_to_page (a : RuntimeAtlas) (page_id : Nat) (frame : Frame)
    (image : Image) : Except TexPackerError (RuntimeAtlas × UpdateRegion) :=
  if page_id < a.pages.length then
    let page := a.pages.getD page_id (Image.fromPixel 0 0 ⟨0, 0, 0, 0⟩)
    let page1 := { page with pix := blitPix page image frame.frame.x frame.frame.y frame.rotated }
    .ok ({ a with pages := modifyIdx (fun _ => page1) page_id a.pages },
         { page_id, x := frame.frame.x, y := frame.frame.y,
           width := frame.frame.w, height := frame.frame.h })
  else .error (.invalidConfig "Page not found")

/-- `RuntimeAtlas::append_with_image`. -/
def append_with_image (a : RuntimeAtlas) (key : String) (image : Image) :
    RuntimeAtlas × Except TexPackerError (Nat × Frame × UpdateRegion) :=
  let (s1, res) := a.session.append key image.width image.height
  match res with
  | .error e => ({ a with session := s1 }, .error e)
  | .ok (page_id, frame) =>
    let a1 := { a with session := s1 }
    let a2 := a1.ensure_page page_id
    match a2.blit_to_page page_id frame image with
    | .error e => (a2, .error e)
    | .ok (a3, region) => (a3, .ok (page_id, frame, region))

/-- `RuntimeAtlas::clear_region`: the doubly-clipped clear loop as a pixel
function update. -/
def clear_region (a : RuntimeAtlas) (region : UpdateRegion) : RuntimeAtlas :=
  if region.page_id < a.pages.length then
    let page := a.pages.getD region.page_id (Image.fromPixel 0 0 ⟨0, 0, 0, 0⟩)
    let page1 :=
      { page with pix := fun x y =>
          if region.x ≤ x ∧ x < min (region.x + region.width) page.width ∧
              region.y ≤ y ∧ y < min (region.y + region.height) page.height then
            a.background_color
          else page.pix x y }
    { a with pages := modifyIdx (fun _ => page1) region.page_id a.pages }
  else a

/-- `RuntimeAtlas::evict_with_clear`: capture the key's frame rectangle (not
its reserved slot), evict, and clear exactly that rectangle when requested. -/
def evict_with_clear (a : RuntimeAtlas) (page_id : Nat) (key : String)
    (clear : Bool) : RuntimeAtlas × Option UpdateRegion :=
  let frame_info : Option UpdateRegion :=
    if clear then
      match a.session.get_frame key with
      | some (_, frame) =>
        some { page_id, x := frame.frame.x, y := frame.frame.y,
               width := frame.frame.w, height := frame.frame.h }
      | none => none
    else none
  let (s1, ok) := a.session.evict page_id key
  let a1 := { a with session := s1 }
  if ok then
    if clear then
      match frame_info with
      | some region => (a1.clear_region region, some region)
      | none => (a1, some UpdateRegion.empty)
    else (a1, some UpdateRegion.empty)
  else (a1, none)

end RuntimeAtlas

/-- Decidable equality for `Except` results. -/
instance {ε α : Type} [DecidableEq ε] [DecidableEq α] : DecidableEq (Except ε α) :=
  fun a b =>
    match a, b with
    | .ok x, .ok y =>
      if h : x = y then .isTrue (by rw [h]) else .isFalse (by intro hh; cases hh; exact h rfl)
    | .error x, .error y =>
      if h : x = y then .isTrue (by rw [h]) else .isFalse (by intro hh; cases hh; exact h rfl)
    | .ok _, .error _ => .isFalse (by intro hh; cases hh)
    | .error _, .ok _ => .isFalse (by intro hh; cases hh)

/-! ## Claim-side auxiliary definitions -/

/-- Reserved slot of a placed frame as the spec and the repository's own test
helper (`tests/force_max_and_border.rs::reserved_slot`) derive it from the
frame rectangle: inset `extrusion + floor(padding/2)` removed on top/left,
`2·extrusion + padding` added to each dimension. -/
def reservedSlot (cfg : PackerConfig) (f : Rect) : Rect :=
  let pad_half := cfg.texture_padding / 2
  let off := cfg.texture_extrusion + pad_half
  ⟨f.x - off, f.y - off,
   f.w + cfg.texture_extrusion * 2 + cfg.texture_padding,
   f.h + cfg.texture_extrusion * 2 + cfg.texture_padding⟩

/-- Membership of a pixel coordinate in a rectangle (half-open extents). -/
def rectContainsPt (r : Rect) (px py : Nat) : Bool :=
  r.x ≤ px && px < r.x + r.w && r.y ≤ py && py < r.y + r.h

/-! ## Claim C1 -/

/-- Config of the repository's own `guillotine_rotation_fit.rs` test: a
16×12 page, rotation allowed, Guillotine family, otherwise defaults. -/
def c1cfg : PackerConfig :=
  { PackerConfig.default with
      max_width := 16
      max_height := 12
      allow_rotation := true
      family := .guillotine }

/-- C1: the rotation-geometry invariant `rotated ⇒ frame.w = source.h ∧
frame.h = source.w` FAILS for the Guillotine packer: packing the repository
test's own 8×14 input yields a rotated frame that keeps `frame.w = 8 = source.w`
and `frame.h = 14 = source.h` (`guillotine.rs` builds `frame_rect` from
`rect.w, rect.h` without swapping; the test `guillotine_rotation_fit.rs`
asserts `frame.w = 14 ∧ frame.h = 8` at this very input, so the code
contradicts its own test). -/
theorem c1_guillotine_rotated_frame_not_swapped :
    ((GuillotinePacker.new c1cfg .bestAreaFit .splitShorterLeftoverAxis).pack
        "R" ⟨0, 0, 8, 14⟩).2 =
      some { key := "R", frame := ⟨1, 1, 8, 14⟩, rotated := true,
             trimmed := false, source := ⟨0, 0, 8, 14⟩, source_size := (8, 14) } := by
  decide

/-! ## Claim C2 -/

/-- A 12×30 page, zero padding, for the Guillotine family. -/
def c2cfg : PackerConfig :=
  { PackerConfig.default with
      max_width := 12
      max_height := 30
      texture_padding := 0
      trim := false
      family := .guillotine }

/-- The two frames `pack_layout` actually produces for C2's input. -/
def c2frameR : Frame :=
  { key := "R", frame := ⟨0, 0, 20, 6⟩, rotated := true, trimmed := false,
    source := ⟨0, 0, 20, 6⟩, source_size := (20, 6) }

/-- Second frame of the C2 output. -/
def c2frameS : Frame :=
  { key := "S", frame := ⟨6, 0, 6, 20⟩, rotated := false, trimmed := false,
    source := ⟨0, 0, 6, 20⟩, source_size := (6, 20) }

/-- C2: the reserved-slot disjointness invariant FAILS on a concrete pack
output: `pack_layout` of a 20×6 and a 6×20 item into a 12×30 Guillotine page
(no padding) places both on page 0 with reserved slots `(0,0,20,6)` and
`(6,0,6,20)`, which overlap. (The 20×6 item is placed rotated into a 6×20
slot, but its frame keeps the unswapped 20×6 dimensions — the C1 slip — so
the recorded frames collide even though the packer's internal placements were
disjoint.) -/
theorem c2_reserved_slots_overlap :
    pack_layout [("R", 20, 6), ("S", 6, 20)] c2cfg =
      .ok { pages := [{ id := 0, width := 20, height := 20,
                        frames := [c2frameR, c2frameS] }],
            meta := mkMeta c2cfg } ∧
    rectsIntersect (reservedSlot c2cfg c2frameR.frame)
      (reservedSlot c2cfg c2frameS.frame) = true := by
  constructor
  · decide
  · decide

/-! ## Claim C3 -/

/-- Config of the repository's own `force_max_ignores_pow2_and_square` test:
`max = 300×180`, `force_max_dimensions`, pow2 and square all on. -/
def c3cfg : PackerConfig :=
  { PackerConfig.default with
      max_width := 300
      max_height := 180
      force_max_dimensions := true
      power_of_two := true
      square := true }

/-- C3: `force_max_dimensions` does NOT take precedence over pow2/square: the
pipeline seeds the page size with `(max_w, max_h)` and then still applies
power-of-two rounding and square equalisation, so the test input `(10, 10)`
yields a 512×512 page instead of the claimed exact 300×180 (contradicting the
repository's own `force_max_ignores_pow2_and_square` test). -/
theorem c3_force_max_not_exact :
    ((pack_layout [("a", 10, 10)] c3cfg).map fun a =>
        a.pages.map fun p => (p.width, p.height)) = .ok [(512, 512)] := by
  decide

/-! ## Claim C6 -/

/-- A 16×16 page config for an oversized input. -/
def c6cfg : PackerConfig :=
  { PackerConfig.default with max_width := 16, max_height := 16 }

/-- C6: when a fresh page places zero items the pipeline fails with the
field-less `OutOfSpace` value, NOT with `OutOfSpaceGeneric { placed, total }`
as the claim (and `error.rs`'s own documented taxonomy, which `pipeline.rs`'s
expression does not even type-check against) states: a single 50×50 item in a
16×16 atlas reports no placed/total counts. -/
theorem c6_out_of_space_without_counts :
    pack_layout [("a", 50, 50)] c6cfg = .error .outOfSpace ∧
    pack_layout [("a", 50, 50)] c6cfg ≠ .error (.outOfSpaceGeneric 0 1) := by
  constructor
  · decide
  · decide

/-! ## Claim C7 -/

/-- Skyline config with rotation disabled, 16×12 page, no padding. -/
def c7cfg : PackerConfig :=
  { PackerConfig.default with
      max_width := 16
      max_height := 12
      allow_rotation := false
      texture_padding := 0 }

/-- C7: with `allow_rotation = false` the Skyline packer still returns a
rotated frame: an 8×14 rect does not fit a 16×12 page unrotated, and
`skyline.rs::pack`'s fallback branch (guarded by `!allow_rotation`) retries
the swapped orientation and marks it `rotated`, contradicting the claim, the
config-flag documentation and the intent of `skyline_no_rotation.rs`
("rotation must be false when allow_rotation=false"). -/
theorem c7_skyline_rotates_despite_flag :
    ((SkylinePacker.new c7cfg).pack "R" ⟨0, 0, 8, 14⟩).2 =
      some { key := "R", frame := ⟨0, 0, 14, 8⟩, rotated := true,
             trimmed := false, source := ⟨0, 0, 8, 14⟩, source_size := (8, 14) } := by
  decide

/-! ## Claim C4 -/

/-- A tiny 4×4 page config (no padding) so that an 8×8 append must fail. -/
def c4cfg : PackerConfig :=
  { PackerConfig.default with
      max_width := 4
      max_height := 4
      texture_padding := 0 }

/-- Session state after the failed `append "A" 8 8` on a fresh session. -/
def c4afterFail : AtlasSession × Except TexPackerError (Nat × Frame) :=
  (AtlasSession.new c4cfg .guillotine).append "A" 8 8

/-- C4 counterexample: a failed `append` does NOT leave the session unchanged
and ids are NOT dense: on a fresh session (`next_id = 0`) the failed 8×8
append creates no page but advances `next_id` to 1, and the next successful
append receives page id 1, so the session's only page has id 1 (not 0). -/
theorem c4_failed_append_advances_counter :
    c4afterFail.2.isOk = false ∧
    c4afterFail.1.pages = [] ∧
    c4afterFail.1.next_id = 1 ∧
    ((c4afterFail.1.append "B" 1 1).2.map Prod.fst = .ok 1 ∧
      (c4afterFail.1.append "B" 1 1).1.pages.map RtPage.id = [1]) := by
  refine ⟨by decide, by decide, by decide, by decide, by decide⟩

/-! ## Claim C5 -/

/-- 16×12 runtime page, default padding 2, Guillotine runtime strategy. -/
def c5cfg : PackerConfig :=
  { PackerConfig.default with
      max_width := 16
      max_height := 12
      texture_padding := 2
      trim := false }

/-- An all-white 8×14 source image. -/
def c5white : Image :=
  { width := 8, height := 14, pix := fun _ _ => ⟨255, 255, 255, 255⟩ }

/-- Runtime atlas after appending the white image (placed rotated). -/
def c5afterAppend : RuntimeAtlas :=
  ((RuntimeAtlas.new c5cfg .guillotine).append_with_image "A" c5white).1

/-- Result of `evict_with_clear` on that atlas. -/
def c5afterEvict : RuntimeAtlas × Option UpdateRegion :=
  c5afterAppend.evict_with_clear 0 "A" true

/-- C5 counterexample: after a successful `evict_with_clear` (clear = true) a
pixel of the evicted texture's reserved slot still holds the blitted white,
not the background color. The 8×14 image is placed rotated (frame `(1,1,8,14)`
inside the 16×10 reserved slot); the rotated blit painted `[1,15)×[1,9)` but
the clear covers only the frame rectangle, leaving e.g. pixel `(9,2)` — inside
the reserved slot `(0,0,10,16)` derived from the frame — white. -/
theorem c5_evict_clear_misses_slot_pixel :
    c5afterEvict.2 = some ⟨0, 1, 1, 8, 14⟩ ∧
    rectContainsPt (reservedSlot c5cfg ⟨1, 1, 8, 14⟩) 9 2 = true ∧
    ((c5afterEvict.1.pages.getD 0 (Image.fromPixel 0 0 ⟨0, 0, 0, 0⟩)).pix 9 2 =
      ⟨255, 255, 255, 255⟩) ∧
    c5afterEvict.1.background_color = ⟨0, 0, 0, 0⟩ := by
  refine ⟨by decide, by decide, by decide, by decide⟩

/-! ## Claim C10 -/

/-- `can_pack` / `pack` coherence for the Guillotine packer: both gate on the
same `choose` applied to the same padded dimensions. -/
theorem guillotine_canPack_pack (p : GuillotinePacker) (key : String) (r : Rect)
    (h : p.can_pack r = true) : ((p.pack key r).2).isSome = true := by
  simp only [GuillotinePacker.can_pack] at h
  simp only [GuillotinePacker.pack]
  cases hc : p.choose (r.w + p.config.texture_padding + p.config.texture_extrusion * 2)
      (r.h + p.config.texture_padding + p.config.texture_extrusion * 2) with
  | none => rw [hc] at h; simp at h
  | some v =>
    obtain ⟨idx, placeR, rot⟩ := v
    simp [hc]

/-- `can_pack` / `pack` coherence for the MaxRects packer. -/
theorem maxrects_canPack_pack (p : MaxRectsPacker) (key : String) (r : Rect)
    (h : p.can_pack r = true) : ((p.pack key r).2).isSome = true := by
  simp only [MaxRectsPacker.can_pack] at h
  simp only [MaxRectsPacker.pack]
  cases hc : p.find_position (r.w + p.config.texture_padding + p.config.texture_extrusion * 2)
      (r.h + p.config.texture_padding + p.config.texture_extrusion * 2) with
  | none => rw [hc] at h; simp at h
  | some v =>
    obtain ⟨placeR, rot⟩ := v
    simp [hc]

/-- `can_pack` / `pack` coherence for the Skyline packer: a waste-map hit in
`can_pack` is a `try_pack` hit in `pack`, and otherwise both consult
`find_skyline` on the unmodified state. -/
theorem skyline_canPack_pack (p : SkylinePacker) (key : String) (r : Rect)
    (h : p.can_pack r = true) : ((p.pack key r).2).isSome = true := by
  simp only [SkylinePacker.can_pack] at h
  simp only [SkylinePacker.pack]
  cases hw : p.waste with
  | none =>
    rw [hw] at h
    simp only [Bool.false_or] at h
    cases hf : p.find_skyline
        (r.w + p.config.texture_padding + p.config.texture_extrusion * 2)
        (r.h + p.config.texture_padding + p.config.texture_extrusion * 2) with
    | none => rw [hf] at h; simp at h
    | some v =>
      obtain ⟨i, placeR⟩ := v
      simp [hw, hf]
  | some wm =>
    rw [hw] at h
    cases hc : wm.choose
        (r.w + p.config.texture_padding + p.config.texture_extrusion * 2)
        (r.h + p.config.texture_padding + p.config.texture_extrusion * 2) with
    | some v =>
      obtain ⟨idx, placeR, rot⟩ := v
      simp [hw, WasteMap.try_pack, hc]
    | none =>
      simp only [WasteMap.can_fit, hc] at h
      simp only [Option.isSome_none, Bool.false_or] at h
      cases hf : p.find_skyline
          (r.w + p.config.texture_padding + p.config.texture_extrusion * 2)
          (r.h + p.config.texture_padding + p.config.texture_extrusion * 2) with
      | none => rw [hf] at h; simp at h
      | some v =>
        obtain ⟨i, placeR⟩ := v
        simp [hw, WasteMap.try_pack, hc, hf]

/-- C10: for every packer family and every packer state, `can_pack rect = true`
implies that `pack key rect` on that same state returns a frame, so the
offline pack loop never skips an item `can_pack` approved. -/
theorem c10_can_pack_implies_pack_succeeds (st : PackerState) (key : String)
    (r : Rect) (h : st.can_pack r = true) : ((st.pack key r).2).isSome = true := by
  cases st with
  | sk p =>
    have := skyline_canPack_pack p key r h
    simpa [PackerState.pack] using this
  | mr p =>
    have := maxrects_canPack_pack p key r h
    simpa [PackerState.pack] using this
  | gt p =>
    have := guillotine_canPack_pack p key r h
    simpa [PackerState.pack] using this

/-- Witness for C10 at a concrete state: a fresh 16×16 Guillotine packer
accepts a 4×4 rect and `pack` indeed returns a frame. -/
theorem c10_witness :
    (PackerState.gt (GuillotinePacker.new
        { PackerConfig.default with max_width := 16, max_height := 16 }
        .bestAreaFit .splitShorterLeftoverAxis)).can_pack ⟨0, 0, 4, 4⟩ = true ∧
    (((PackerState.gt (GuillotinePacker.new
        { PackerConfig.default with max_width := 16, max_height := 16 }
        .bestAreaFit .splitShorterLeftoverAxis)).pack "k" ⟨0, 0, 4, 4⟩).2).isSome = true :=
  ⟨by decide, c10_can_pack_implies_pack_succeeds _ "k" _ (by decide)⟩

/-- C4 amended: a failed `append` returns the field-less out-of-space error
and creates no page (the page list is exactly the old one), but the internal
id counter `next_id` has still advanced by one — so page ids are strictly
increasing yet may skip values after a failed grow. -/
theorem c4_failed_append_pages_unchanged_counter_advances
    (s : AtlasSession) (key : String) (w h : Nat)
    (hfail : (s.append key w h).2.isOk = false) :
    (s.append key w h).2 = .error .outOfSpace ∧
    (s.append key w h).1.pages = s.pages ∧
    (s.append key w h).1.next_id = s.next_id + 1 := by
  simp only [AtlasSession.append] at hfail ⊢
  cases hhit : s.pages.enum.findSome? fun (x : Nat × RtPage) =>
      match x.2.choose (w + s.cfg.texture_extrusion * 2 + s.cfg.texture_padding)
        (h + s.cfg.texture_extrusion * 2 + s.cfg.texture_padding) with
      | some (slot, rotated) => some (x.1, x.2.id, slot, rotated)
      | none => none with
  | some v =>
    obtain ⟨idx, id, slot, rot⟩ := v
    rw [hhit] at hfail
    simp [Except.isOk, Except.toBool] at hfail
  | none =>
    rw [hhit] at hfail
    cases hc : s.new_page.2.choose
        (w + s.cfg.texture_extrusion * 2 + s.cfg.texture_padding)
        (h + s.cfg.texture_extrusion * 2 + s.cfg.texture_padding) with
    | some v =>
      obtain ⟨slot, rot⟩ := v
      rw [hc] at hfail
      simp [Except.isOk, Except.toBool] at hfail
    | none =>
      refine ⟨rfl, ?_, ?_⟩ <;> simp [AtlasSession.new_page]

/-- Witness for the amended C4 at the concrete failing append. -/
theorem c4_amended_witness :
    ((AtlasSession.new c4cfg .guillotine).append "A" 8 8).2.isOk = false ∧
    ((AtlasSession.new c4cfg .guillotine).append "A" 8 8).2 = .error .outOfSpace ∧
    ((AtlasSession.new c4cfg .guillotine).append "A" 8 8).1.pages =
      (AtlasSession.new c4cfg .guillotine).pages ∧
    ((AtlasSession.new c4cfg .guillotine).append "A" 8 8).1.next_id =
      (AtlasSession.new c4cfg .guillotine).next_id + 1 :=
  ⟨by decide,
   c4_failed_append_pages_unchanged_counter_advances
     (AtlasSession.new c4cfg .guillotine) "A" 8 8 (by decide)⟩

/-! ## List update lemmas for the runtime-atlas pixel semantics -/

theorem modifyIdx_getD_same {α : Type} (f : α → α) :
    ∀ (l : List α) (i : Nat) (d : α), i < l.length →
      (modifyIdx f i l).getD i d = f (l.getD i d) := by
  intro l
  induction l with
  | nil => intro i d h; simp at h
  | cons x xs ih =>
    intro i d h
    cases i with
    | zero => simp [modifyIdx]
    | succ n =>
      simp only [modifyIdx, List.getD_cons_succ]
      exact ih n d (by simpa using h)

theorem modifyIdx_getD_ne {α : Type} (f : α → α) :
    ∀ (l : List α) (i j : Nat) (d : α), j ≠ i →
      (modifyIdx f i l).getD j d = l.getD j d := by
  intro l
  induction l with
  | nil => intro i j d _; cases i <;> simp [modifyIdx]
  | cons x xs ih =>
    intro i j d hne
    cases i with
    | zero =>
      cases j with
      | zero => exact absurd rfl hne
      | succ m => simp [modifyIdx]
    | succ n =>
      cases j with
      | zero => simp [modifyIdx]
      | succ m =>
        simp only [modifyIdx, List.getD_cons_succ]
        exact ih n m d (fun hh => hne (by rw [hh]))

theorem modifyIdx_length {α : Type} (f : α → α) :
    ∀ (l : List α) (i : Nat), (modifyIdx f i l).length = l.length := by
  intro l
  induction l with
  | nil => intro i; cases i <;> simp [modifyIdx]
  | cons x xs ih =>
    intro i
    cases i with
    | zero => simp [modifyIdx]
    | succ n => simp [modifyIdx, ih n]

/-! ## Claim C5 (amended) -/

/-- Under a known frame and successful eviction, `evict_with_clear` with
`clear = true` is exactly: evict, then clear the frame rectangle. -/
theorem evict_with_clear_eq (a : RuntimeAtlas) (page_id : Nat) (key : String)
    (pid : Nat) (f : Frame)
    (hget : a.session.get_frame key = some (pid, f))
    (hev : (a.session.evict page_id key).2 = true) :
    a.evict_with_clear page_id key true =
      (({ a with session := (a.session.evict page_id key).1 } : RuntimeAtlas).clear_region
        ⟨page_id, f.frame.x, f.frame.y, f.frame.w, f.frame.h⟩,
       some ⟨page_id, f.frame.x, f.frame.y, f.frame.w, f.frame.h⟩) := by
  simp only [RuntimeAtlas.evict_with_clear, hget]
  cases hsp : a.session.evict page_id key with
  | mk s1v okv =>
    rw [hsp] at hev
    simp only at hev
    subst hev
    simp

/-- C5 amended: a successful `evict_with_clear` with `clear = true` for a key
the session knows returns exactly the frame rectangle as the cleared region;
every pixel inside that rectangle (clipped to the page) becomes the background
color, and every other pixel of every page is unchanged — clearing does NOT
extend to the padding/extrusion margins of the reserved slot. -/
theorem c5_evict_clear_clears_frame_rect_only
    (a : RuntimeAtlas) (page_id : Nat) (key : String) (pid : Nat) (f : Frame)
    (hget : a.session.get_frame key = some (pid, f))
    (hev : (a.session.evict page_id key).2 = true) :
    (a.evict_with_clear page_id key true).2 =
      some ⟨page_id, f.frame.x, f.frame.y, f.frame.w, f.frame.h⟩ ∧
    (∀ x y,
      page_id < a.pages.length →
      (let oldPage := a.pages.getD page_id (Image.fromPixel 0 0 ⟨0, 0, 0, 0⟩)
       let newPage := (a.evict_with_clear page_id key true).1.pages.getD page_id
         (Image.fromPixel 0 0 ⟨0, 0, 0, 0⟩)
       (f.frame.x ≤ x ∧ x < min (f.frame.x + f.frame.w) oldPage.width ∧
          f.frame.y ≤ y ∧ y < min (f.frame.y + f.frame.h) oldPage.height →
          newPage.pix x y = a.background_color) ∧
       (¬ (f.frame.x ≤ x ∧ x < min (f.frame.x + f.frame.w) oldPage.width ∧
          f.frame.y ≤ y ∧ y < min (f.frame.y + f.frame.h) oldPage.height) →
          newPage.pix x y = oldPage.pix x y))) ∧
    (∀ i, i ≠ page_id →
      (a.evict_with_clear page_id key true).1.pages.getD i
          (Image.fromPixel 0 0 ⟨0, 0, 0, 0⟩) =
        a.pages.getD i (Image.fromPixel 0 0 ⟨0, 0, 0, 0⟩)) := by
  rw [evict_with_clear_eq a page_id key pid f hget hev]
  refine ⟨rfl, ?_, ?_⟩
  · intro x y hlen
    simp only [RuntimeAtlas.clear_region, hlen, if_pos]
    rw [modifyIdx_getD_same _ _ _ _ hlen]
    constructor
    · intro hin
      simp only []
      rw [if_pos hin]
    · intro hout
      simp only []
      rw [if_neg hout]
  · intro i hne
    by_cases hlen : page_id < a.pages.length
    · simp only [RuntimeAtlas.clear_region, hlen, if_pos]
      exact modifyIdx_getD_ne _ _ _ _ _ hne
    · simp only [RuntimeAtlas.clear_region, hlen]
      rfl

/-- The frame the runtime session records for the C5 scenario's append. -/
def c5frameA : Frame :=
  { key := "A", frame := ⟨1, 1, 8, 14⟩, rotated := true, trimmed := false,
    source := ⟨0, 0, 8, 14⟩, source_size := (8, 14) }

/-- Witness for the amended C5 at the concrete post-append atlas. -/
theorem c5_amended_witness :
    c5afterAppend.session.get_frame "A" = some (0, c5frameA) ∧
    (c5afterAppend.session.evict 0 "A").2 = true ∧
    ((c5afterAppend.evict_with_clear 0 "A" true).2 =
        some ⟨0, c5frameA.frame.x, c5frameA.frame.y, c5frameA.frame.w,
          c5frameA.frame.h⟩ ∧
      (∀ x y,
        0 < c5afterAppend.pages.length →
        (let oldPage := c5afterAppend.pages.getD 0 (Image.fromPixel 0 0 ⟨0, 0, 0, 0⟩)
         let newPage := (c5afterAppend.evict_with_clear 0 "A" true).1.pages.getD 0
           (Image.fromPixel 0 0 ⟨0, 0, 0, 0⟩)
         (c5frameA.frame.x ≤ x ∧
            x < min (c5frameA.frame.x + c5frameA.frame.w) oldPage.width ∧
            c5frameA.frame.y ≤ y ∧
            y < min (c5frameA.frame.y + c5frameA.frame.h) oldPage.height →
            newPage.pix x y = c5afterAppend.background_color) ∧
         (¬ (c5frameA.frame.x ≤ x ∧
            x < min (c5frameA.frame.x + c5frameA.frame.w) oldPage.width ∧
            c5frameA.frame.y ≤ y ∧
            y < min (c5frameA.frame.y + c5frameA.frame.h) oldPage.height) →
            newPage.pix x y = oldPage.pix x y))) ∧
      (∀ i, i ≠ 0 →
        (c5afterAppend.evict_with_clear 0 "A" true).1.pages.getD i
            (Image.fromPixel 0 0 ⟨0, 0, 0, 0⟩) =
          c5afterAppend.pages.getD i (Image.fromPixel 0 0 ⟨0, 0, 0, 0⟩))) :=
  ⟨by decide, by decide,
   c5_evict_clear_clears_frame_rect_only c5afterAppend 0 "A" 0 c5frameA
     (by decide) (by decide)⟩

/-! ## Claim C9: scan characterisations -/

/-- `scanLeft` stops at the first non-transparent column (or the width). -/
theorem scanLeft_spec (img : Image) (t : Nat) :
    ∀ (fuel x stop : Nat), x ≤ stop → stop ≤ img.width → stop - x < fuel →
      (∀ x', x ≤ x' → x' < stop → colTrans img t x' = true) →
      (stop = img.width ∨ colTrans img t stop = false) →
      scanLeft fuel img t x = stop := by
  intro fuel
  induction fuel with
  | zero => intro x stop h1 h2 h3; omega
  | succ f ih =>
    intro x stop h1 h2 h3 htrans hstop
    simp only [scanLeft]
    by_cases hx : x < img.width
    · simp only [hx, if_pos]
      by_cases hcol : colTrans img t x = true
      · simp only [hcol, if_pos]
        have hxs : x < stop := by
          rcases Nat.lt_or_ge x stop with hlt | hge
          · exact hlt
          · have hxe : x = stop := by omega
            subst hxe
            rcases hstop with hw | hf
            · omega
            · rw [hcol] at hf; cases hf
        exact ih (x + 1) stop (by omega) h2 (by omega)
          (fun x' hx1 hx2 => htrans x' (by omega) hx2) hstop
      · simp only [Bool.not_eq_true] at hcol
        simp only [hcol]
        simp only [Bool.false_eq_true, if_false]
        rcases Nat.lt_or_ge x stop with hlt | hge
        · have := htrans x (le_refl x) hlt
          rw [hcol] at this; cases this
        · omega
    · simp only [hx, if_neg, if_false]
      omega

/-- `scanRight` stops at the first non-transparent column from the right (or
at `x1`). -/
theorem scanRight_spec (img : Image) (t : Nat) (x1 : Nat) :
    ∀ (fuel x2 stop : Nat), x1 ≤ stop → stop ≤ x2 → x2 - stop < fuel →
      (∀ x', stop < x' → x' ≤ x2 → colTrans img t x' = true) →
      (stop = x1 ∨ colTrans img t stop = false) →
      scanRight fuel img t x1 x2 = stop := by
  intro fuel
  induction fuel with
  | zero => intro x2 stop h1 h2 h3; omega
  | succ f ih =>
    intro x2 stop h1 h2 h3 htrans hstop
    simp only [scanRight]
    by_cases hx : x2 > x1
    · simp only [hx, if_pos]
      by_cases hcol : colTrans img t x2 = true
      · simp only [hcol, if_pos]
        have hxs : stop < x2 := by
          rcases Nat.lt_or_ge stop x2 with hlt | hge
          · exact hlt
          · have hxe : stop = x2 := by omega
            subst hxe
            rcases hstop with hw | hf
            · omega
            · rw [hcol] at hf; cases hf
        exact ih (x2 - 1) stop (by omega) (by omega) (by omega)
          (fun x' hx1' hx2' => htrans x' hx1' (by omega)) hstop
      · simp only [Bool.not_eq_true] at hcol
        simp only [hcol]
        simp only [Bool.false_eq_true, if_false]
        rcases Nat.lt_or_ge stop x2 with hlt | hge
        · have := htrans x2 hlt (le_refl x2)
          rw [hcol] at this; cases this
        · omega
    · simp only [hx, if_neg, if_false]
      omega

/-- `scanTop` stops at the first row of `x1..=x2` that is not transparent (or
the height). -/
theorem scanTop_spec (img : Image) (t : Nat) (x1 x2 : Nat) :
    ∀ (fuel y stop : Nat), y ≤ stop → stop ≤ img.height → stop - y < fuel →
      (∀ y', y ≤ y' → y' < stop → rowTrans img t x1 x2 y' = true) →
      (stop = img.height ∨ rowTrans img t x1 x2 stop = false) →
      scanTop fuel img t x1 x2 y = stop := by
  intro fuel
  induction fuel with
  | zero => intro y stop h1 h2 h3; omega
  | succ f ih =>
    intro y stop h1 h2 h3 htrans hstop
    simp only [scanTop]
    by_cases hy : y < img.height
    · simp only [hy, if_pos]
      by_cases hrow : rowTrans img t x1 x2 y = true
      · simp only [hrow, if_pos]
        have hys : y < stop := by
          rcases Nat.lt_or_ge y stop with hlt | hge
          · exact hlt
          · have hye : y = stop := by omega
            subst hye
            rcases hstop with hw | hf
            · omega
            · rw [hrow] at hf; cases hf
        exact ih (y + 1) stop (by omega) h2 (by omega)
          (fun y' hy1 hy2 => htrans y' (by omega) hy2) hstop
      · simp only [Bool.not_eq_true] at hrow
        simp only [hrow]
        simp only [Bool.false_eq_true, if_false]
        rcases Nat.lt_or_ge y stop with hlt | hge
        · have := htrans y (le_refl y) hlt
          rw [hrow] at this; cases this
        · omega
    · simp only [hy, if_neg, if_false]
      omega

/-- `scanBottom` stops at the first non-transparent row from the bottom (or at
`y1`). -/
theorem scanBottom_spec (img : Image) (t : Nat) (x1 x2 y1 : Nat) :
    ∀ (fuel y2 stop : Nat), y1 ≤ stop → stop ≤ y2 → y2 - stop < fuel →
      (∀ y', stop < y' → y' ≤ y2 → rowTrans img t x1 x2 y' = true) →
      (stop = y1 ∨ rowTrans img t x1 x2 stop = false) →
      scanBottom fuel img t x1 x2 y1 y2 = stop := by
  intro fuel
  induction fuel with
  | zero => intro y2 stop h1 h2 h3; omega
  | succ f ih =>
    intro y2 stop h1 h2 h3 htrans hstop
    simp only [scanBottom]
    by_cases hy : y2 > y1
    · simp only [hy, if_pos]
      by_cases hrow : rowTrans img t x1 x2 y2 = true
      · simp only [hrow, if_pos]
        have hys : stop < y2 := by
          rcases Nat.lt_or_ge stop y2 with hlt | hge
          · exact hlt
          · have hye : stop = y2 := by omega
            subst hye
            rcases hstop with hw | hf
            · omega
            · rw [hrow] at hf; cases hf
        exact ih (y2 - 1) stop (by omega) (by omega) (by omega)
          (fun y' hy1' hy2' => htrans y' hy1' (by omega)) hstop
      · simp only [Bool.not_eq_true] at hrow
        simp only [hrow]
        simp only [Bool.false_eq_true, if_false]
        rcases Nat.lt_or_ge stop y2 with hlt | hge
        · have := htrans y2 hlt (le_refl y2)
          rw [hrow] at this; cases this
        · omega
    · simp only [hy, if_neg, if_false]
      omega

/-- Fully-transparent part of C9: every column transparent makes
`compute_trim_rect` return no opaque content and the full-image rect. -/
theorem trim_fully_transparent (img : Image) (t : Nat)
    (hall : ∀ x, x < img.width → ∀ y, y < img.height → (img.pix x y).a = 0) :
    compute_trim_rect img t = (none, ⟨0, 0, img.width, img.height⟩) := by
  have hcols : ∀ x', 0 ≤ x' → x' < img.width → colTrans img t x' = true := by
    intro x' _ hx'
    simp only [colTrans, List.all_eq_true, List.mem_range, decide_eq_true_eq]
    intro y hy
    rw [hall x' hx' y hy]
    omega
  have hx1 : scanLeft (img.width + 1) img t 0 = img.width :=
    scanLeft_spec img t (img.width + 1) 0 img.width (Nat.zero_le _) (le_refl _)
      (by omega) hcols (Or.inl rfl)
  simp only [compute_trim_rect, hx1, ge_iff_le, le_refl, if_pos]

/-- Rectangle part of C9: with threshold 0 and opaque pixels exactly filling
rectangle `R`, `compute_trim_rect` reports trimmed size `R.w × R.h` and
source rect exactly `R`. -/
theorem trim_exact_rect (img : Image) (R : Rect)
    (hw : 0 < R.w) (hh : 0 < R.h)
    (hxw : R.x + R.w ≤ img.width) (hyh : R.y + R.h ≤ img.height)
    (hpix : ∀ x, x < img.width → ∀ y, y < img.height →
      ((img.pix x y).a > 0 ↔ R.x ≤ x ∧ x < R.x + R.w ∧ R.y ≤ y ∧ y < R.y + R.h)) :
    compute_trim_rect img 0 = (some ⟨0, 0, R.w, R.h⟩, R) := by
  have hcolT : ∀ x', x' < img.width →
      (x' < R.x ∨ R.x + R.w ≤ x') → colTrans img 0 x' = true := by
    intro x' hx' hside
    simp only [colTrans, List.all_eq_true, List.mem_range, decide_eq_true_eq]
    intro y hy
    by_contra hgt
    have := (hpix x' hx' y hy).mp (by omega)
    omega
  have hcolF : ∀ x', x' < img.width → R.x ≤ x' → x' < R.x + R.w →
      colTrans img 0 x' = false := by
    intro x' hx' h1 h2
    have hyR : R.y < img.height := by omega
    have hopq : (img.pix x' R.y).a > 0 :=
      (hpix x' hx' R.y hyR).mpr ⟨h1, h2, le_refl _, by omega⟩
    apply Bool.eq_false_iff.mpr
    intro hcontra
    simp only [colTrans, List.all_eq_true, List.mem_range, decide_eq_true_eq] at hcontra
    have := hcontra R.y hyR
    omega
  have hRx : R.x < img.width := by omega
  have hx1 : scanLeft (img.width + 1) img 0 0 = R.x :=
    scanLeft_spec img 0 (img.width + 1) 0 R.x (Nat.zero_le _) (by omega) (by omega)
      (fun x' _ hx2 => hcolT x' (by omega) (Or.inl hx2))
      (Or.inr (hcolF R.x hRx (le_refl _) (by omega)))
  have hx2v : scanRight (img.width + 1) img 0 R.x (img.width - 1) = R.x + R.w - 1 :=
    scanRight_spec img 0 R.x (img.width + 1) (img.width - 1) (R.x + R.w - 1)
      (by omega) (by omega) (by omega)
      (fun x' h1 h2 => hcolT x' (by omega) (Or.inr (by omega)))
      (Or.inr (hcolF (R.x + R.w - 1) (by omega) (by omega) (by omega)))
  have hrowT : ∀ y', y' < img.height →
      (y' < R.y ∨ R.y + R.h ≤ y') → rowTrans img 0 R.x (R.x + R.w - 1) y' = true := by
    intro y' hy' hside
    simp only [rowTrans, List.all_eq_true, List.mem_range, decide_eq_true_eq]
    intro dx hdx
    by_contra hgt
    have hxb : R.x + dx < img.width := by omega
    have := (hpix (R.x + dx) hxb y' hy').mp (by omega)
    omega
  have hrowF : ∀ y', y' < img.height → R.y ≤ y' → y' < R.y + R.h →
      rowTrans img 0 R.x (R.x + R.w - 1) y' = false := by
    intro y' hy' h1 h2
    have hopq : (img.pix (R.x + 0) y').a > 0 :=
      (hpix (R.x + 0) (by omega) y' hy').mpr ⟨by omega, by omega, h1, h2⟩
    apply Bool.eq_false_iff.mpr
    intro hcontra
    simp only [rowTrans, List.all_eq_true, List.mem_range, decide_eq_true_eq] at hcontra
    have := hcontra 0 (by omega)
    omega
  have hy1 : scanTop (img.height + 1) img 0 R.x (R.x + R.w - 1) 0 = R.y :=
    scanTop_spec img 0 R.x (R.x + R.w - 1) (img.height + 1) 0 R.y (Nat.zero_le _)
      (by omega) (by omega)
      (fun y' _ hy2 => hrowT y' (by omega) (Or.inl hy2))
      (Or.inr (hrowF R.y (by omega) (le_refl _) (by omega)))
  have hy2v : scanBottom (img.height + 1) img 0 R.x (R.x + R.w - 1) R.y
      (img.height - 1) = R.y + R.h - 1 :=
    scanBottom_spec img 0 R.x (R.x + R.w - 1) R.y (img.height + 1)
      (img.height - 1) (R.y + R.h - 1) (by omega) (by omega) (by omega)
      (fun y' h1 h2 => hrowT y' (by omega) (Or.inr (by omega)))
      (Or.inr (hrowF (R.y + R.h - 1) (by omega) (by omega) (by omega)))
  have hnotge : ¬ (R.x ≥ img.width) := by omega
  simp only [compute_trim_rect, hx1, ge_iff_le, hnotge, if_neg, if_false,
    Nat.not_le.mpr hRx, hx2v, hy1, hy2v]
  have e1 : R.x + R.w - 1 - R.x + 1 = R.w := by omega
  have e2 : R.y + R.h - 1 - R.y + 1 = R.h := by omega
  rw [e1, e2]

/-- C9: the trim detector shrinks a bounding rect from each side while the
edge has only `alpha ≤ threshold` pixels: a fully transparent image yields no
opaque content, and with threshold 0 an exact opaque rectangle surrounded by
zero alpha is returned verbatim as the source rect with its size as the
trimmed size. -/
theorem c9_trim_detector_correct :
    (∀ (img : Image) (t : Nat),
      (∀ x, x < img.width → ∀ y, y < img.height → (img.pix x y).a = 0) →
      compute_trim_rect img t = (none, ⟨0, 0, img.width, img.height⟩)) ∧
    (∀ (img : Image) (R : Rect),
      0 < R.w → 0 < R.h → R.x + R.w ≤ img.width → R.y + R.h ≤ img.height →
      (∀ x, x < img.width → ∀ y, y < img.height →
        ((img.pix x y).a > 0 ↔ R.x ≤ x ∧ x < R.x + R.w ∧ R.y ≤ y ∧ y < R.y + R.h)) →
      compute_trim_rect img 0 = (some ⟨0, 0, R.w, R.h⟩, R)) :=
  ⟨trim_fully_transparent, trim_exact_rect⟩

/-- A 5×4 test image whose alpha-positive pixels form exactly the rectangle
`(1, 2, 2, 1)`. -/
def c9img : Image :=
  { width := 5, height := 4,
    pix := fun x y => if (x = 1 ∨ x = 2) ∧ y = 2 then ⟨9, 9, 9, 7⟩ else ⟨0, 0, 0, 0⟩ }

/-- A fully transparent 3×2 image. -/
def c9blank : Image :=
  { width := 3, height := 2, pix := fun _ _ => ⟨0, 0, 0, 0⟩ }

/-- Witness for C9 at concrete images: the blank image trims to none, and the
exact-rectangle image returns its opaque rectangle. -/
theorem c9_witness :
    compute_trim_rect c9blank 5 = (none, ⟨0, 0, 3, 2⟩) ∧
    compute_trim_rect c9img 0 = (some ⟨0, 0, 2, 1⟩, ⟨1, 2, 2, 1⟩) :=
  ⟨c9_trim_detector_correct.1 c9blank 5 (by decide),
   c9_trim_detector_correct.2 c9img ⟨1, 2, 2, 1⟩ (by decide) (by decide)
     (by decide) (by decide) (by decide)⟩

/-! ## Claim C8 -/

/-- Mapping commutes with stable insertion when the orders correspond. -/
theorem map_insertStable {α β : Type} (f : α → β) (le : α → α → Bool)
    (le' : β → β → Bool) (hle : ∀ a b, le a b = le' (f a) (f b)) (x : α) :
    ∀ l : List α, (insertStable le x l).map f = insertStable le' (f x) (l.map f) := by
  intro l
  induction l with
  | nil => rfl
  | cons y ys ih =>
    simp only [insertStable, List.map_cons]
    cases hb : le' (f x) (f y) with
    | true => simp [hle x y, hb]
    | false => simp [hle x y, hb, ih]

/-- Mapping commutes with the stable sort when the orders correspond. -/
theorem map_sortStable {α β : Type} (f : α → β) (le : α → α → Bool)
    (le' : β → β → Bool) (hle : ∀ a b, le a b = le' (f a) (f b)) :
    ∀ l : List α, (sortStable le l).map f = sortStable le' (l.map f) := by
  intro l
  induction l with
  | nil => rfl
  | cons x xs ih =>
    simp only [sortStable, List.map_cons]
    rw [map_insertStable f le le' hle, ih]

/-- The geometry projection of the trimless `prepare_inputs` equals the
sorted layout preps built from the images' dimensions. -/
theorem prepare_inputs_geom (inputs : List InputImage) (cfg : PackerConfig)
    (htrim : cfg.trim = false) :
    (prepare_inputs inputs cfg).map Prep.geom =
      sortPrepL cfg.sort_order
        ((inputs.map fun i => (i.key, i.image.width, i.image.height)).map
          fun (k, w, h) =>
            { key := k, rect := ⟨0, 0, w, h⟩, trimmed := false,
              source := ⟨0, 0, w, h⟩, orig_size := (w, h) }) := by
  simp only [prepare_inputs, htrim, Bool.false_eq_true, if_false]
  cases horder : cfg.sort_order with
  | noSort =>
    simp only [sortPrep, sortPrepL, List.map_map]
    rfl
  | areaDesc =>
    simp only [sortPrep, sortPrepL]
    rw [map_sortStable Prep.geom
      (fun (a b : Prep) => decide (prepCmp .areaDesc a.key a.rect b.key b.rect ≠ .gt))
      (fun (a b : PrepL) => decide (prepCmp .areaDesc a.key a.rect b.key b.rect ≠ .gt))
      (fun a b => rfl)]
    simp only [List.map_map]
    rfl
  | maxSideDesc =>
    simp only [sortPrep, sortPrepL]
    rw [map_sortStable Prep.geom
      (fun (a b : Prep) => decide (prepCmp .maxSideDesc a.key a.rect b.key b.rect ≠ .gt))
      (fun (a b : PrepL) => decide (prepCmp .maxSideDesc a.key a.rect b.key b.rect ≠ .gt))
      (fun a b => rfl)]
    simp only [List.map_map]
    rfl
  | heightDesc =>
    simp only [sortPrep, sortPrepL]
    rw [map_sortStable Prep.geom
      (fun (a b : Prep) => decide (prepCmp .heightDesc a.key a.rect b.key b.rect ≠ .gt))
      (fun (a b : PrepL) => decide (prepCmp .heightDesc a.key a.rect b.key b.rect ≠ .gt))
      (fun a b => rfl)]
    simp only [List.map_map]
    rfl
  | widthDesc =>
    simp only [sortPrep, sortPrepL]
    rw [map_sortStable Prep.geom
      (fun (a b : Prep) => decide (prepCmp .widthDesc a.key a.rect b.key b.rect ≠ .gt))
      (fun (a b : PrepL) => decide (prepCmp .widthDesc a.key a.rect b.key b.rect ≠ .gt))
      (fun a b => rfl)]
    simp only [List.map_map]
    rfl
  | nameAsc =>
    simp only [sortPrep, sortPrepL]
    rw [map_sortStable Prep.geom
      (fun (a b : Prep) => decide (prepCmp .nameAsc a.key a.rect b.key b.rect ≠ .gt))
      (fun (a b : PrepL) => decide (prepCmp .nameAsc a.key a.rect b.key b.rect ≠ .gt))
      (fun a b => rfl)]
    simp only [List.map_map]
    rfl

/-- C8: with trimming disabled and a concrete (non-Auto) family, `pack_images`
and `pack_layout` produce identical atlas geometry for matching inputs — the
same pages with the same ids, dimensions and frames in the same order, and
the same metadata. -/
theorem c8_pack_images_layout_geometry_equal (inputs : List InputImage)
    (cfg : PackerConfig) (htrim : cfg.trim = false)
    (hfam : cfg.family ≠ .auto) :
    pack_images_atlas inputs cfg =
      pack_layout (inputs.map fun i => (i.key, i.image.width, i.image.height)) cfg := by
  simp only [pack_images_atlas, pack_layout, pack_prepared_atlas]
  cases hi : inputs with
  | nil => rfl
  | cons a as =>
    have hgeom := prepare_inputs_geom (a :: as) cfg htrim
    simp only [List.map_cons] at hgeom
    simp only [List.map_cons, List.isEmpty_cons, Bool.false_eq_true, if_false,
      if_neg hfam, hgeom]

/-- A small 3×2 image with arbitrary pixel content for the C8 witness. -/
def c8img : Image :=
  { width := 3, height := 2, pix := fun x y => ⟨x, y, 0, 200⟩ }

/-- Config for the C8 witness: defaults with trimming disabled. -/
def c8cfg : PackerConfig := { PackerConfig.default with trim := false }

/-- Witness for C8 at a concrete input: one 3×2 image against its layout
triple under the default (Skyline) family. -/
theorem c8_witness :
    c8cfg.trim = false ∧ c8cfg.family ≠ .auto ∧
    pack_images_atlas [⟨"a", c8img⟩] c8cfg =
      pack_layout ([⟨"a", c8img⟩].map fun (i : InputImage) =>
        (i.key, i.image.width, i.image.height)) c8cfg :=
  ⟨rfl, by decide,
   c8_pack_images_layout_geometry_equal [⟨"a", c8img⟩] c8cfg rfl (by decide)⟩

end TexPacker
